import Mathlib

/-!
Verification development for the amazon-neptune-for-graphql utility.

The definitions below are a shallow embedding of the JavaScript sources:

* `src/util.js` — `splitHost`, `parseNeptuneDomainFromHost`,
  `parseNeptuneDomainFromEndpoint` (modelled as `Except`-returning functions,
  a thrown `Error` becoming `.error`);
* `src/pipelineResources.js` — `checkPipeline`, `storeResource` and the
  create/rollback control flow of `createUpdateAWSpipeline`, and
  `getSchemaFields`/`attachResolvers`;
* `src/main.js` — the argument switch of `processArgs`, the neptune-analytics
  endpoint detection, the AWS-pipeline and CDK option sections, the Lambda
  deployment package selection, and the transformation pipeline of `main`
  (inference, change application, parse, validate, resolver generation and the
  output writes), modelled as an event trace;
* the SDL codec (`schemaParser.js`, which is not part of the sources at hand)
  is modelled from the spec, see the `SchemaModel`/`SDLText` section.

JavaScript strings are Lean `String`s, `String.prototype.split` is `jsSplit`
(a structurally recursive model of split on a non-empty separator),
`Array.prototype.join` is `String.intercalate`, and a read of
`array[i]` that may be out of bounds yields the string `"undefined"`, matching
how an `undefined` propagates into the string contexts where the value is used.
-/

/-- When the first list is a prefix of the second, the remainder of the
second; `none` otherwise. -/
def dropPref : List Char → List Char → Option (List Char)
  | [], rest => some rest
  | _ :: _, [] => none
  | c :: cs, d :: ds => if c = d then dropPref cs ds else none

/-- Worker for `jsSplit`: scan the input, emitting the accumulated chunk at
every occurrence of the separator. The fuel argument (initially the input
length) keeps the recursion structural. -/
def splitGo (sep : List Char) : Nat → List Char → List Char → List (List Char)
  | _, [], acc => [acc.reverse]
  | 0, rest, acc => [acc.reverse ++ rest]
  | fuel + 1, c :: cs, acc =>
    match dropPref sep (c :: cs) with
    | some rest => acc.reverse :: splitGo sep fuel rest []
    | none => splitGo sep fuel cs (c :: acc)

/-- Model of JavaScript `String.prototype.split` for the non-empty separators
used by the sources: the chunks between the leftmost non-overlapping
occurrences of the separator, with empty chunks kept. -/
def jsSplit (s sep : String) : List String :=
  if sep = "" then [s]
  else (splitGo sep.data s.data.length s.data []).map String.mk

deriving instance DecidableEq for Except

/-- The neptune analytics type constant from `src/main.js`. -/
def NEPTUNE_GRAPH : String := "neptune-graph"

/-- The neptune database type constant from `src/main.js` and
`pipelineResources.js`. -/
def NEPTUNE_DB : String := "neptune-db"

/-- Model of `splitHost` in `util.js`: split a neptune host on `'.'`, throwing
when there are fewer than `MIN_HOST_PARTS = 5` parts. -/
def splitHost (neptuneHost : String) : Except String (List String) :=
  let parts := jsSplit neptuneHost "."
  if parts.length < 5 then
    .error ("Cannot parse neptune host " ++ neptuneHost)
  else
    .ok parts

/-- Model of `parseNeptuneDomainFromHost` in `util.js`: the last
`NUM_DOMAIN_PARTS = 3` dot-separated parts of the host joined by `'.'`
(`parts.splice(parts.length - 3, 3).join('.')`). -/
def parseNeptuneDomainFromHost (neptuneHost : String) : Except String String :=
  match splitHost neptuneHost with
  | .error e => .error e
  | .ok parts => .ok (String.intercalate "." (parts.drop (parts.length - 3)))

/-- Model of `parseNeptuneDomainFromEndpoint` in `util.js`: the endpoint must
split on `':'` into exactly two parts, and the domain is parsed from the first
(host) part. -/
def parseNeptuneDomainFromEndpoint (neptuneEndpoint : String) : Except String String :=
  let parts := jsSplit neptuneEndpoint ":"
  if parts.length ≠ 2 then
    .error ("Cannot parse domain from neptune endpoint " ++ neptuneEndpoint)
  else
    parseNeptuneDomainFromHost (parts.headD "")

/-- Characterization of `parseNeptuneDomainFromHost`: it succeeds exactly on
hosts with at least five dot-separated parts, returning the last three joined
by dots. -/
theorem parseNeptuneDomainFromHost_ok (h d : String) :
    parseNeptuneDomainFromHost h = .ok d ↔
      (5 ≤ (jsSplit h ".").length ∧
       d = String.intercalate "."
            ((jsSplit h ".").drop ((jsSplit h ".").length - 3))) := by
  unfold parseNeptuneDomainFromHost splitHost
  by_cases h5 : (jsSplit h ".").length < 5
  · simp [h5]
  · simp [h5]
    constructor
    · intro hd
      exact ⟨by omega, hd.symm⟩
    · intro hd
      exact hd.2.symm

/-- C9: `parseNeptuneDomainFromEndpoint e` returns normally exactly when `e`
splits on `':'` into exactly two parts and the host part has at least five
`'.'`-separated parts; in that case the result is `parseNeptuneDomainFromHost`
of the host part, namely the last three `'.'`-separated parts of the host
joined by `'.'`. -/
theorem parseNeptuneDomainFromEndpoint_spec (e d : String) :
    parseNeptuneDomainFromEndpoint e = .ok d ↔
      ((jsSplit e ":").length = 2 ∧
       5 ≤ (jsSplit ((jsSplit e ":").headD "") ".").length ∧
       parseNeptuneDomainFromHost ((jsSplit e ":").headD "") = .ok d ∧
       d = String.intercalate "."
            ((jsSplit ((jsSplit e ":").headD "") ".").drop
              ((jsSplit ((jsSplit e ":").headD "") ".").length - 3))) := by
  unfold parseNeptuneDomainFromEndpoint
  by_cases h2 : (jsSplit e ":").length = 2
  · simp [h2, parseNeptuneDomainFromHost_ok]
  · simp [h2]

/-- Outcome of `checkPipeline`: a normal return carrying the final value of the
`pipelineExists` module variable, or a process exit with a code. -/
inductive CheckOutcome
  | normal (pipelineExists : Bool)
  | exited (code : Nat)
deriving DecidableEq

/-- Model of `checkPipeline` in `pipelineResources.js` (lines 92-148) as a
function of which of the three pipeline resources (the `NAME + 'LambdaFunction'`
Lambda, the `NAME + 'API'` AppSync API, and the `NAME + 'LambdaExecutionRole'`
IAM role) exist. `pipelineExists` starts `false`; it is set `true` only when
all three exist; the function returns when all three or none exist and calls
`process.exit(1)` otherwise. -/
def checkPipeline (lambdaExists appSyncExists roleExists : Bool) : CheckOutcome :=
  if lambdaExists && appSyncExists && roleExists then .normal true
  else if !lambdaExists && !appSyncExists && !roleExists then .normal false
  else .exited 1

/-- C8: `checkPipeline` returns normally with `pipelineExists = true` when all
three resources exist, returns normally with `pipelineExists = false` when none
exist, and exits the process with code 1 exactly when a strict non-empty subset
of the three exists. -/
theorem checkPipeline_spec :
    ∀ lambdaExists appSyncExists roleExists : Bool,
      (checkPipeline lambdaExists appSyncExists roleExists = .normal true ↔
        lambdaExists = true ∧ appSyncExists = true ∧ roleExists = true) ∧
      (checkPipeline lambdaExists appSyncExists roleExists = .normal false ↔
        lambdaExists = false ∧ appSyncExists = false ∧ roleExists = false) ∧
      (checkPipeline lambdaExists appSyncExists roleExists = .exited 1 ↔
        (¬(lambdaExists = true ∧ appSyncExists = true ∧ roleExists = true) ∧
         ¬(lambdaExists = false ∧ appSyncExists = false ∧ roleExists = false))) := by
  decide

/-- A resource record: one key/value pair stored in the `RESOURCES`
accumulator of `pipelineResources.js`. -/
abbrev Resource := String × String

/-- Insert one key/value pair the way `Object.assign` does: overwrite the
value when the key is present, append otherwise. -/
def assignResource (rs : List Resource) (kv : Resource) : List Resource :=
  if rs.any (fun p => p.1 == kv.1) then
    rs.map (fun p => if p.1 == kv.1 then (p.1, kv.2) else p)
  else
    rs ++ [kv]

/-- Model of `storeResource` in `pipelineResources.js` (lines 151-154):
`Object.assign(RESOURCES, resource)` merges the given record into the
accumulator (the subsequent `fs.writeFileSync` persists it and is not part of
the in-memory state). -/
def storeResource (rs : List Resource) (resource : List Resource) : List Resource :=
  resource.foldl assignResource rs

/-- One atomic action of the creation phase of `createUpdateAWSpipeline`
(the `try` block at `pipelineResources.js` lines 825-886): either a
`storeResource` call recording resources, or some other side-effecting AWS
call that records nothing. -/
inductive CreateAction
  | store (resource : List Resource)
  | awsCall
deriving DecidableEq

/-- Effect of a successfully executed creation action on the `RESOURCES`
accumulator. -/
def applyAction (rs : List Resource) : CreateAction → List Resource
  | .store resource => storeResource rs resource
  | .awsCall => rs

/-- Result of the creation phase: success with the final accumulator, or the
rollback path of the `catch` block (lines 887-892), which calls
`removeAWSpipelineResources(RESOURCES, quiet)` with the accumulator as it
stands and then returns. -/
inductive CreateResult
  | success (resources : List Resource)
  | rolledBack (removed : List Resource)
deriving DecidableEq

/-- Interpreter for the creation phase: actions run in order; each is paired
with a flag saying whether it throws. The first throwing action transfers
control to the `catch` block, which rolls back using exactly the current
accumulator and returns; no further action runs. The returned list is the
sequence of actions that completed. -/
def runCreateSteps (rs : List Resource) : List (CreateAction × Bool) → (List CreateAction × CreateResult)
  | [] => ([], .success rs)
  | (_, true) :: _ => ([], .rolledBack rs)
  | (a, false) :: rest =>
    let done := runCreateSteps (applyAction rs a) rest
    (a :: done.1, done.2)

/-- Helper for C7: the interpreter from an arbitrary starting accumulator,
when the first failure is at position `k`, completes exactly the first `k`
actions and rolls back with the accumulator those actions produced. -/
theorem runCreateSteps_eq (steps : List (CreateAction × Bool)) :
    ∀ (rs : List Resource) (k : Nat), k < steps.length →
      (steps.getD k (.awsCall, false)).2 = true →
      (∀ i, i < k → (steps.getD i (.awsCall, false)).2 = false) →
      runCreateSteps rs steps =
        ((steps.take k).map Prod.fst,
          .rolledBack (((steps.take k).map Prod.fst).foldl applyAction rs)) := by
  induction steps with
  | nil =>
    intro rs k hk _ _
    simp at hk
  | cons s rest ih =>
    intro rs k hk hfail hfirst
    match k with
    | 0 =>
      have : s.2 = true := by simpa using hfail
      match s with
      | (a, b) =>
        cases b with
        | false => simp at this
        | true => simp [runCreateSteps]
    | k + 1 =>
      have hs : s.2 = false := by
        have := hfirst 0 (Nat.succ_pos k)
        simpa using this
      match s with
      | (a, b) =>
        cases b with
        | true => simp at hs
        | false =>
          have hrest := ih (applyAction rs a) k (by simpa using hk)
            (by simpa using hfail)
            (by
              intro i hi
              have := hfirst (i + 1) (by omega)
              simpa using this)
          simp [runCreateSteps, hrest]

/-- C7: when creating the AWS pipeline resources fails partway through, the
`catch` block of `createUpdateAWSpipeline` rolls back by calling
`removeAWSpipelineResources` on exactly the resources recorded in the
`RESOURCES` accumulator so far (those stored by the completed prefix of
actions), and returns without running or retrying any further step: the
completed actions are exactly the prefix before the failure. -/
theorem createUpdateAWSpipeline_rollback (steps : List (CreateAction × Bool)) (k : Nat)
    (hk : k < steps.length)
    (hfail : (steps.getD k (.awsCall, false)).2 = true)
    (hfirst : ∀ i, i < k → (steps.getD i (.awsCall, false)).2 = false) :
    runCreateSteps [] steps =
      ((steps.take k).map Prod.fst,
        .rolledBack (((steps.take k).map Prod.fst).foldl applyAction [])) :=
  runCreateSteps_eq steps [] k hk hfail hfirst

/-- Witness for C7: a concrete run that stores the region and the Lambda
execution role, then fails on the next AWS call; the rollback receives exactly
the two stored resources. -/
theorem createUpdateAWSpipeline_rollback_witness :
    runCreateSteps []
        [(.store [("region", "us-east-1")], false),
         (.awsCall, false),
         (.store [("LambdaExecutionRole", "piplLambdaExecutionRole")], false),
         (.awsCall, true)] =
      ([.store [("region", "us-east-1")], .awsCall,
        .store [("LambdaExecutionRole", "piplLambdaExecutionRole")]],
        .rolledBack [("region", "us-east-1"),
          ("LambdaExecutionRole", "piplLambdaExecutionRole")]) := by
  have h := createUpdateAWSpipeline_rollback
    [(.store [("region", "us-east-1")], false),
     (.awsCall, false),
     (.store [("LambdaExecutionRole", "piplLambdaExecutionRole")], false),
     (.awsCall, true)] 3
    (by decide) (by decide)
    (by decide)
  simpa using h

/-- Modelled from the spec: kind of a type definition (spec section 3),
`kind ∈ {OBJECT, ENUM, SCALAR}`. The SDL codec implementation
(`schemaParser.js`) is not among the sources at hand, so the Schema Model and
codec are modelled from the spec. -/
inductive TypeKind
  | OBJECT
  | ENUM
  | SCALAR
deriving DecidableEq

/-- Modelled from the spec: direction of a relationship directive,
`direction ∈ {OUT, IN}` (spec section 6). -/
inductive EdgeDirection
  | OUT
  | IN
deriving DecidableEq

/-- Modelled from the spec: cardinality of a relationship field,
`cardinality ∈ {ONE, MANY}` (spec section 3). -/
inductive Cardinality
  | ONE
  | MANY
deriving DecidableEq

/-- Modelled from the spec: the value of one SDL directive argument — a plain
string, or a list of name/type descriptor pairs (the shape used by the filter
and pagination argument descriptors of a relationship directive). -/
inductive DirValue
  | str (s : String)
  | pairs (ps : List (String × String))
deriving DecidableEq

/-- Modelled from the spec: one SDL directive occurrence, a name with named
arguments. -/
structure SDLDirective where
  name : String
  args : List (String × DirValue)
deriving DecidableEq

/-- A field-level directive not recognized by this grammar: its name is
neither the relationship directive nor the identifier directive. Spec section
4.2 requires such directives to be preserved verbatim as opaque metadata and
never interpreted; being unrecognized — named differently from every
recognized directive — is part of what they are, so it is carried in the
type. -/
abbrev ExtraFieldDirective :=
  {d : SDLDirective // d.name ≠ "relationship" ∧ d.name ≠ "id"}

/-- A type-level directive not recognized by this grammar: not the graph-label
mapping directive. Preserved verbatim as opaque metadata (spec section
4.2). -/
abbrev ExtraTypeDirective :=
  {d : SDLDirective // d.name ≠ "graphLabel"}

/-- Modelled from the spec: the graph-mapping payload of a relationship field —
target type name, cardinality, underlying edge label, direction, and the
filter and pagination argument descriptors (name/type pairs) (spec sections 3
and 6). -/
structure RelationshipInfo where
  edgeLabel : String
  direction : EdgeDirection
  cardinality : Cardinality
  targetType : String
  filterArgs : List (String × String)
  paginationArgs : List (String × String)
deriving DecidableEq

/-- Modelled from the spec: `FieldKind ∈ {SCALAR, RELATIONSHIP}` with the
relationship payload (spec sections 3 and 9). -/
inductive FieldKind
  | SCALAR
  | RELATIONSHIP (rel : RelationshipInfo)
deriving DecidableEq

/-- Modelled from the spec: a field definition — name, type reference,
nullability, list-ness, kind, whether the identifier directive is attached,
and the unrecognized field directives preserved verbatim as opaque metadata
(spec sections 3 and 4.2). -/
structure FieldDefinition where
  name : String
  typeRef : String
  nullable : Bool
  isList : Bool
  kind : FieldKind
  isIdentifier : Bool
  extraDirectives : List ExtraFieldDirective
deriving DecidableEq

/-- Modelled from the spec: a type definition — name, kind, ordered field
definitions, the graph-label mapping, and the unrecognized type-level
directives preserved verbatim (spec section 3). -/
structure TypeDefinition where
  name : String
  kind : TypeKind
  fields : List FieldDefinition
  graphLabel : String
  extraDirectives : List ExtraTypeDirective
deriving DecidableEq

/-- Modelled from the spec: an operation definition — name, arguments, return
type; the operation kind (QUERY or MUTATION) is carried by the collection the
operation belongs to (spec section 3). -/
structure OperationDefinition where
  name : String
  args : List (String × String)
  returnType : String
deriving DecidableEq

/-- Modelled from the spec: the Schema Model — ordered collections of type,
query, and mutation definitions, plus free-form metadata for round-trip
preservation (spec section 3): the opaque top-level declarations the grammar
does not interpret, each kept verbatim as its source text. -/
structure SchemaModel where
  types : List TypeDefinition
  queries : List OperationDefinition
  mutations : List OperationDefinition
  metadata : List String
deriving DecidableEq

/-- Modelled from the spec: one SDL field — name, type name, non-null marker,
list marker, attached directives. -/
structure SDLField where
  name : String
  typeName : String
  nonNull : Bool
  isList : Bool
  directives : List SDLDirective
deriving DecidableEq

/-- Modelled from the spec: one SDL operation inside the Query or Mutation
block. -/
structure SDLOperation where
  name : String
  args : List (String × String)
  returnType : String
deriving DecidableEq

/-- Modelled from the spec: one top-level SDL declaration: a type declaration
with its keyword (`type`, `enum` or `scalar`), its type-level directives and
its fields; the Query or Mutation block; or an opaque declaration the grammar
does not interpret (free-form text preserved for round-tripping). -/
inductive SDLDecl
  | typeDecl (keyword : String) (name : String) (directives : List SDLDirective)
      (fields : List SDLField)
  | queryBlock (ops : List SDLOperation)
  | mutationBlock (ops : List SDLOperation)
  | opaqueDecl (text : String)
deriving DecidableEq

/-- Modelled from the spec: SDL text, represented by its sequence of top-level
declarations in source order (the concrete-syntax layer below this is not
modelled). -/
abbrev SDLText := List SDLDecl

/-- Serialization of a relationship direction. -/
def directionToString : EdgeDirection → String
  | .OUT => "OUT"
  | .IN => "IN"

/-- Parse of a relationship direction from its SDL spelling. -/
def directionFromString (s : String) : EdgeDirection :=
  if s = "IN" then .IN else .OUT

/-- Serialization of a cardinality. -/
def cardinalityToString : Cardinality → String
  | .ONE => "ONE"
  | .MANY => "MANY"

/-- Parse of a cardinality from its SDL spelling. -/
def cardinalityFromString (s : String) : Cardinality :=
  if s = "ONE" then .ONE else .MANY

/-- The relationship directive of a relationship field: edge label, direction,
cardinality, target type name, and the filter and pagination argument
descriptors — the exact directive metadata of spec section 4.2. -/
def relationshipDirective (rel : RelationshipInfo) : SDLDirective :=
  ⟨"relationship",
   [("edgeType", .str rel.edgeLabel),
    ("direction", .str (directionToString rel.direction)),
    ("cardinality", .str (cardinalityToString rel.cardinality)),
    ("targetType", .str rel.targetType),
    ("filterArgs", .pairs rel.filterArgs),
    ("paginationArgs", .pairs rel.paginationArgs)]⟩

/-- The directives of a field: the relationship directive for relationship
fields, the identifier directive when the field is the identifier, and then
the unrecognized directives re-emitted verbatim (spec sections 4.2 and 6). -/
def fieldDirectives (f : FieldDefinition) : List SDLDirective :=
  (match f.kind with
   | .SCALAR => []
   | .RELATIONSHIP rel => [relationshipDirective rel])
  ++ (if f.isIdentifier then [⟨"id", []⟩] else [])
  ++ f.extraDirectives.map Subtype.val

/-- Serialization of one field; `includeDirectives = false` strips all
directives, producing the client-facing contract (spec section 4.2). -/
def fieldToSDL (includeDirectives : Bool) (f : FieldDefinition) : SDLField :=
  ⟨f.name, f.typeRef, !f.nullable, f.isList,
   if includeDirectives then fieldDirectives f else []⟩

/-- SDL keyword of a type kind. -/
def typeKindKeyword : TypeKind → String
  | .OBJECT => "type"
  | .ENUM => "enum"
  | .SCALAR => "scalar"

/-- The type-level directives of a type: the graph-label mapping directive,
then the unrecognized type-level directives re-emitted verbatim. -/
def typeDirectives (t : TypeDefinition) : List SDLDirective :=
  ⟨"graphLabel", [("label", .str t.graphLabel)]⟩ :: t.extraDirectives.map Subtype.val

/-- Serialization of one type definition. -/
def typeToSDL (includeDirectives : Bool) (t : TypeDefinition) : SDLDecl :=
  .typeDecl (typeKindKeyword t.kind) t.name
    (if includeDirectives then typeDirectives t else [])
    (t.fields.map (fieldToSDL includeDirectives))

/-- Serialization of one operation definition. -/
def opToSDL (op : OperationDefinition) : SDLOperation :=
  ⟨op.name, op.args, op.returnType⟩

/-- Modelled from the spec: `serialize(model, includeDirectives) → sdlText`
(spec section 4.2), named after `schemaStringify` in the repository:
deterministic output ordered by the original insertion order — the type
declarations in model order, the Query and Mutation blocks, and the free-form
metadata re-emitted as its opaque declarations. -/
def schemaStringify (m : SchemaModel) (includeDirectives : Bool) : SDLText :=
  m.types.map (typeToSDL includeDirectives)
    ++ [.queryBlock (m.queries.map opToSDL), .mutationBlock (m.mutations.map opToSDL)]
    ++ m.metadata.map .opaqueDecl

/-- First directive with the given name, if any. -/
def findDirective (ds : List SDLDirective) (n : String) : Option SDLDirective :=
  ds.find? (fun d => d.name == n)

/-- String value of a named directive argument, defaulting to the empty
string. -/
def getStrArg (args : List (String × DirValue)) (k : String) : String :=
  match args.find? (fun p => p.1 == k) with
  | some (_, .str s) => s
  | _ => ""

/-- Descriptor-list value of a named directive argument, defaulting to the
empty list. -/
def getPairsArg (args : List (String × DirValue)) (k : String) : List (String × String) :=
  match args.find? (fun p => p.1 == k) with
  | some (_, .pairs ps) => ps
  | _ => []

/-- The field-level directives the grammar does not recognize, kept verbatim
in order (spec section 4.2). -/
def fieldExtras : List SDLDirective → List ExtraFieldDirective
  | [] => []
  | d :: rest =>
    if h : d.name ≠ "relationship" ∧ d.name ≠ "id" then ⟨d, h⟩ :: fieldExtras rest
    else fieldExtras rest

/-- The type-level directives the grammar does not recognize, kept verbatim in
order. -/
def typeExtras : List SDLDirective → List ExtraTypeDirective
  | [] => []
  | d :: rest =>
    if h : d.name ≠ "graphLabel" then ⟨d, h⟩ :: typeExtras rest
    else typeExtras rest

/-- The graph label read from the type-level directives. -/
def typeLabelOf (ds : List SDLDirective) : String :=
  match findDirective ds "graphLabel" with
  | some d => getStrArg d.args "label"
  | none => ""

/-- Parse of one SDL field back into a field definition: the relationship
directive, when present, determines the relationship kind and its full
payload (edge label, direction, cardinality, target type, filter and
pagination descriptors); the identifier directive sets the identifier flag;
every other directive is preserved verbatim as opaque metadata. -/
def fieldOfSDL (f : SDLField) : FieldDefinition :=
  let kind : FieldKind :=
    match findDirective f.directives "relationship" with
    | some d => .RELATIONSHIP
        ⟨getStrArg d.args "edgeType",
         directionFromString (getStrArg d.args "direction"),
         cardinalityFromString (getStrArg d.args "cardinality"),
         getStrArg d.args "targetType",
         getPairsArg d.args "filterArgs",
         getPairsArg d.args "paginationArgs"⟩
    | none => .SCALAR
  ⟨f.name, f.typeName, !f.nonNull, f.isList, kind,
   (findDirective f.directives "id").isSome,
   fieldExtras f.directives⟩

/-- Type kind of an SDL keyword. -/
def typeKindFromKeyword (k : String) : TypeKind :=
  if k = "enum" then .ENUM
  else if k = "scalar" then .SCALAR
  else .OBJECT

/-- Parse of one operation. -/
def opOfSDL (op : SDLOperation) : OperationDefinition :=
  ⟨op.name, op.args, op.returnType⟩

/-- Modelled from the spec: `parse(sdlText) → SchemaModel` (spec section 4.2),
named after `schemaParser` in the repository: each type declaration becomes a
type definition in order (graph label and unrecognized directives included),
the Query/Mutation blocks contribute the query and mutation definitions, and
opaque declarations are preserved verbatim as the model's free-form
metadata. -/
def schemaParser : SDLText → SchemaModel
  | [] => ⟨[], [], [], []⟩
  | d :: rest =>
    let m := schemaParser rest
    match d with
    | .typeDecl kw n ds fs =>
        ⟨⟨n, typeKindFromKeyword kw, fs.map fieldOfSDL, typeLabelOf ds, typeExtras ds⟩ :: m.types,
         m.queries, m.mutations, m.metadata⟩
    | .queryBlock ops => ⟨m.types, ops.map opOfSDL ++ m.queries, m.mutations, m.metadata⟩
    | .mutationBlock ops => ⟨m.types, m.queries, ops.map opOfSDL ++ m.mutations, m.metadata⟩
    | .opaqueDecl s => ⟨m.types, m.queries, m.mutations, s :: m.metadata⟩

/-- One lookup step of `findDirective`. -/
theorem findDirective_cons (d : SDLDirective) (ds : List SDLDirective) (n : String) :
    findDirective (d :: ds) n = if d.name = n then some d else findDirective ds n := by
  unfold findDirective
  by_cases h : d.name = n
  · simp [List.find?_cons, h]
  · simp [List.find?_cons, h]

/-- Unrecognized field directives can never be found under the relationship
directive name. -/
theorem findDirective_fieldExtras_rel (ex : List ExtraFieldDirective) :
    findDirective ex.unattach "relationship" = none := by
  induction ex with
  | nil => rfl
  | cons x rest ih =>
    rw [List.unattach_cons, findDirective_cons, if_neg x.2.1]
    exact ih

/-- Unrecognized field directives can never be found under the identifier
directive name. -/
theorem findDirective_fieldExtras_id (ex : List ExtraFieldDirective) :
    findDirective ex.unattach "id" = none := by
  induction ex with
  | nil => rfl
  | cons x rest ih =>
    rw [List.unattach_cons, findDirective_cons, if_neg x.2.2]
    exact ih

/-- Unrecognized type directives can never be found under the graph-label
directive name. -/
theorem findDirective_typeExtras (ex : List ExtraTypeDirective) :
    findDirective ex.unattach "graphLabel" = none := by
  induction ex with
  | nil => rfl
  | cons x rest ih =>
    rw [List.unattach_cons, findDirective_cons, if_neg x.2]
    exact ih

/-- Re-emitted unrecognized field directives are classified back verbatim. -/
theorem fieldExtras_map_val (ex : List ExtraFieldDirective) :
    fieldExtras ex.unattach = ex := by
  induction ex with
  | nil => rfl
  | cons x rest ih =>
    rw [List.unattach_cons]
    unfold fieldExtras
    rw [dif_pos x.2, ih]

/-- Re-emitted unrecognized type directives are classified back verbatim. -/
theorem typeExtras_map_val (ex : List ExtraTypeDirective) :
    typeExtras ex.unattach = ex := by
  induction ex with
  | nil => rfl
  | cons x rest ih =>
    rw [List.unattach_cons]
    unfold typeExtras
    rw [dif_pos x.2, ih]

/-- Round trip for a single field: kind (with the full relationship payload),
identifier flag, and the verbatim opaque directives are all recovered. -/
theorem fieldOfSDL_fieldToSDL (f : FieldDefinition) :
    fieldOfSDL (fieldToSDL true f) = f := by
  rcases f with ⟨n, t, nl, il, k, id, ex⟩
  cases k with
  | SCALAR =>
    cases id <;>
      simp [fieldToSDL, fieldOfSDL, fieldDirectives, findDirective_cons,
        findDirective_fieldExtras_rel, findDirective_fieldExtras_id,
        fieldExtras, fieldExtras_map_val]
  | RELATIONSHIP rel =>
    rcases rel with ⟨el, dir, card, tt, fa, pa⟩
    cases id <;> cases dir <;> cases card <;>
      simp [fieldToSDL, fieldOfSDL, fieldDirectives, relationshipDirective,
        findDirective_cons, findDirective_fieldExtras_rel, findDirective_fieldExtras_id,
        fieldExtras, fieldExtras_map_val, getStrArg, getPairsArg,
        directionToString, directionFromString, cardinalityToString, cardinalityFromString]

/-- Round trip for the graph label of a type. -/
theorem typeLabelOf_typeDirectives (t : TypeDefinition) :
    typeLabelOf (typeDirectives t) = t.graphLabel := by
  unfold typeLabelOf typeDirectives
  rw [findDirective_cons]
  simp [getStrArg]

/-- Round trip for the verbatim opaque directives of a type. -/
theorem typeExtras_typeDirectives (t : TypeDefinition) :
    typeExtras (typeDirectives t) = t.extraDirectives := by
  unfold typeDirectives typeExtras
  rw [dif_neg (by simp)]
  exact typeExtras_map_val t.extraDirectives

/-- Round trip for the type-kind keyword. -/
theorem typeKindFromKeyword_typeKindKeyword (k : TypeKind) :
    typeKindFromKeyword (typeKindKeyword k) = k := by
  cases k <;> simp [typeKindKeyword, typeKindFromKeyword]

/-- Round trip for a single operation. -/
theorem opOfSDL_opToSDL (op : OperationDefinition) : opOfSDL (opToSDL op) = op := rfl

/-- Round trip for a single field, composition form. -/
theorem fieldOfSDL_comp_fieldToSDL : fieldOfSDL ∘ fieldToSDL true = id :=
  funext fieldOfSDL_fieldToSDL

/-- Round trip for a single operation, composition form. -/
theorem opOfSDL_comp_opToSDL : opOfSDL ∘ opToSDL = id :=
  funext opOfSDL_opToSDL

/-- Round trip of the parser over the re-emitted free-form metadata. -/
theorem schemaParser_opaque (meta : List String) :
    schemaParser (meta.map .opaqueDecl) = ⟨[], [], [], meta⟩ := by
  induction meta with
  | nil => rfl
  | cons s rest ih => simp [schemaParser, ih]

/-- Round trip of the parser over a serialized list of type declarations
followed by the Query and Mutation blocks and the metadata. -/
theorem schemaParser_append_blocks (qs ms : List OperationDefinition) (meta : List String) :
    ∀ ts : List TypeDefinition,
      schemaParser (ts.map (typeToSDL true)
          ++ .queryBlock (qs.map opToSDL) :: .mutationBlock (ms.map opToSDL)
             :: meta.map .opaqueDecl) =
        ⟨ts, qs, ms, meta⟩ := by
  intro ts
  induction ts with
  | nil =>
    simp [schemaParser, schemaParser_opaque, List.map_map, opOfSDL_comp_opToSDL, List.map_id]
  | cons t rest ih =>
    rcases t with ⟨n, k, fs, gl, ex⟩
    simp [schemaParser, typeToSDL, ih, typeKindFromKeyword_typeKindKeyword,
      List.map_map, fieldOfSDL_comp_fieldToSDL, List.map_id,
      typeLabelOf_typeDirectives, typeExtras_typeDirectives]

/-- C2: the SDL codec round trip — parsing the serialization of any Schema
Model with directives included yields a structurally equal model:
`schemaParser (schemaStringify m true) = m`. The law covers the full
preservation inventory of spec sections 3 and 4.2: type order, field order,
the graph-label mapping, the relationship payload with target type and
filter/pagination descriptors, the identifier directive, field- and
type-level unrecognized directives kept verbatim, and the free-form
metadata. -/
theorem schemaParser_schemaStringify_roundtrip (m : SchemaModel) :
    schemaParser (schemaStringify m true) = m := by
  rcases m with ⟨ts, qs, ms, meta⟩
  simpa [schemaStringify, List.append_assoc] using schemaParser_append_blocks qs ms meta ts

/-- The mutable input/configuration variables of `src/main.js` (lines 48-88)
that `processArgs` assigns, gathered into one record. -/
structure Options where
  quiet : Bool
  inputGraphQLSchema : String
  inputGraphQLSchemaFile : String
  inputGraphQLSchemaChangesFile : String
  inputGraphDBSchema : String
  inputGraphDBSchemaFile : String
  inputGraphDBSchemaNeptuneEndpoint : String
  queryLanguage : String
  queryClient : String
  isNeptuneIAMAuth : Bool
  createUpdatePipeline : Bool
  createUpdatePipelineName : String
  createUpdatePipelineEndpoint : String
  createUpdatePipelineRegion : String
  createUpdatePipelineNeptuneDatabaseName : String
  removePipelineName : String
  inputCDKpipeline : Bool
  inputCDKpipelineName : String
  inputCDKpipelineEnpoint : String
  inputCDKpipelineFile : String
  inputCDKpipelineRegion : String
  inputCDKpipelineDatabaseName : String
  createLambdaZip : Bool
  outputFolderPath : String
  outputSchemaFile : String
  outputSourceSchemaFile : String
  outputSchemaMutations : Bool
  outputLambdaResolverFile : String
  outputJSResolverFile : String
  outputNeptuneSchemaFile : String
  outputLambdaResolverZipName : String
  outputLambdaResolverZipFile : String
deriving DecidableEq

/-- The initial values of the `src/main.js` module variables (lines 48-88). -/
def defaultOptions : Options where
  quiet := false
  inputGraphQLSchema := ""
  inputGraphQLSchemaFile := ""
  inputGraphQLSchemaChangesFile := ""
  inputGraphDBSchema := ""
  inputGraphDBSchemaFile := ""
  inputGraphDBSchemaNeptuneEndpoint := ""
  queryLanguage := "opencypher"
  queryClient := "sdk"
  isNeptuneIAMAuth := false
  createUpdatePipeline := false
  createUpdatePipelineName := ""
  createUpdatePipelineEndpoint := ""
  createUpdatePipelineRegion := "us-east-1"
  createUpdatePipelineNeptuneDatabaseName := ""
  removePipelineName := ""
  inputCDKpipeline := false
  inputCDKpipelineName := ""
  inputCDKpipelineEnpoint := ""
  inputCDKpipelineFile := ""
  inputCDKpipelineRegion := ""
  inputCDKpipelineDatabaseName := ""
  createLambdaZip := true
  outputFolderPath := "./output"
  outputSchemaFile := ""
  outputSourceSchemaFile := ""
  outputSchemaMutations := true
  outputLambdaResolverFile := ""
  outputJSResolverFile := ""
  outputNeptuneSchemaFile := ""
  outputLambdaResolverZipName := ""
  outputLambdaResolverZipFile := ""

/-- String-valued `Options` fields assignable from an option value
(`array[index + 1]`) in the `processArgs` switch. -/
inductive StrField
  | inputGraphQLSchema
  | inputGraphQLSchemaFile
  | inputGraphQLSchemaChangesFile
  | inputGraphDBSchema
  | inputGraphDBSchemaFile
  | inputGraphDBSchemaNeptuneEndpoint
  | outputSchemaFile
  | outputSourceSchemaFile
  | outputLambdaResolverFile
  | outputJSResolverFile
  | outputNeptuneSchemaFile
  | createUpdatePipelineName
  | createUpdatePipelineRegion
  | createUpdatePipelineEndpoint
  | createUpdatePipelineNeptuneDatabaseName
  | removePipelineName
  | inputCDKpipelineEnpoint
  | inputCDKpipelineDatabaseName
  | inputCDKpipelineName
  | inputCDKpipelineRegion
  | inputCDKpipelineFile
  | outputLambdaResolverZipName
  | outputLambdaResolverZipFile
  | outputFolderPath
deriving DecidableEq

/-- Assignment of an option value to the named string field. -/
def setStrField (o : Options) (nv : String) : StrField -> Options
  | .inputGraphQLSchema => { o with inputGraphQLSchema := nv }
  | .inputGraphQLSchemaFile => { o with inputGraphQLSchemaFile := nv }
  | .inputGraphQLSchemaChangesFile => { o with inputGraphQLSchemaChangesFile := nv }
  | .inputGraphDBSchema => { o with inputGraphDBSchema := nv }
  | .inputGraphDBSchemaFile => { o with inputGraphDBSchemaFile := nv }
  | .inputGraphDBSchemaNeptuneEndpoint => { o with inputGraphDBSchemaNeptuneEndpoint := nv }
  | .outputSchemaFile => { o with outputSchemaFile := nv }
  | .outputSourceSchemaFile => { o with outputSourceSchemaFile := nv }
  | .outputLambdaResolverFile => { o with outputLambdaResolverFile := nv }
  | .outputJSResolverFile => { o with outputJSResolverFile := nv }
  | .outputNeptuneSchemaFile => { o with outputNeptuneSchemaFile := nv }
  | .createUpdatePipelineName => { o with createUpdatePipelineName := nv }
  | .createUpdatePipelineRegion => { o with createUpdatePipelineRegion := nv }
  | .createUpdatePipelineEndpoint => { o with createUpdatePipelineEndpoint := nv }
  | .createUpdatePipelineNeptuneDatabaseName => { o with createUpdatePipelineNeptuneDatabaseName := nv }
  | .removePipelineName => { o with removePipelineName := nv }
  | .inputCDKpipelineEnpoint => { o with inputCDKpipelineEnpoint := nv }
  | .inputCDKpipelineDatabaseName => { o with inputCDKpipelineDatabaseName := nv }
  | .inputCDKpipelineName => { o with inputCDKpipelineName := nv }
  | .inputCDKpipelineRegion => { o with inputCDKpipelineRegion := nv }
  | .inputCDKpipelineFile => { o with inputCDKpipelineFile := nv }
  | .outputLambdaResolverZipName => { o with outputLambdaResolverZipName := nv }
  | .outputLambdaResolverZipFile => { o with outputLambdaResolverZipFile := nv }
  | .outputFolderPath => { o with outputFolderPath := nv }

/-- The effect of one recognized token in the `processArgs` switch
(`src/main.js` lines 95-256). -/
inductive ArgEffect
  | exitEff (code : Nat)
  | setQuiet
  | setStr (f : StrField)
  | setNoMutations
  | setQueryLanguage (s : String)
  | setQueryClient (s : String)
  | setPipelineFlag
  | setCDKFlag
  | setIAM
  | setNoZip
  | skip
deriving DecidableEq

/-- First quarter of the token-to-effect table (help, version, quiet, inputs). -/
def argTable1 : List (String × ArgEffect) :=
  [("--help", ArgEffect.exitEff 0), ("--h", ArgEffect.exitEff 0),
   ("-help", ArgEffect.exitEff 0), ("-h", ArgEffect.exitEff 0),
   ("--version", ArgEffect.exitEff 0), ("--v", ArgEffect.exitEff 0),
   ("-version", ArgEffect.exitEff 0), ("-v", ArgEffect.exitEff 0),
   ("-q", ArgEffect.setQuiet), ("--quiet", ArgEffect.setQuiet),
   ("-is", ArgEffect.setStr StrField.inputGraphQLSchema),
   ("--input-schema", ArgEffect.setStr StrField.inputGraphQLSchema),
   ("-isf", ArgEffect.setStr StrField.inputGraphQLSchemaFile),
   ("--input-schema-file", ArgEffect.setStr StrField.inputGraphQLSchemaFile),
   ("-ig", ArgEffect.setStr StrField.inputGraphDBSchema),
   ("--input-graphdb-schema", ArgEffect.setStr StrField.inputGraphDBSchema),
   ("-igf", ArgEffect.setStr StrField.inputGraphDBSchemaFile),
   ("--input-graphdb-schema-file", ArgEffect.setStr StrField.inputGraphDBSchemaFile),
   ("-isc", ArgEffect.setStr StrField.inputGraphQLSchemaChangesFile),
   ("--input-schema-changes-file", ArgEffect.setStr StrField.inputGraphQLSchemaChangesFile),
   ("-ie", ArgEffect.setStr StrField.inputGraphDBSchemaNeptuneEndpoint),
   ("--input-graphdb-schema-neptune-endpoint", ArgEffect.setStr StrField.inputGraphDBSchemaNeptuneEndpoint)]

/-- Second quarter of the token-to-effect table (output files, resolver
query options). -/
def argTable2 : List (String × ArgEffect) :=
  [("-os", ArgEffect.setStr StrField.outputSchemaFile),
   ("--output-schema-file", ArgEffect.setStr StrField.outputSchemaFile),
   ("-oss", ArgEffect.setStr StrField.outputSourceSchemaFile),
   ("--output-source-schema-file", ArgEffect.setStr StrField.outputSourceSchemaFile),
   ("-onm", ArgEffect.setNoMutations),
   ("--output-schema-no-mutations", ArgEffect.setNoMutations),
   ("-olr", ArgEffect.setStr StrField.outputLambdaResolverFile),
   ("--output-lambda-resolver-file", ArgEffect.setStr StrField.outputLambdaResolverFile),
   ("-or", ArgEffect.setStr StrField.outputJSResolverFile),
   ("--output-js-resolver-file", ArgEffect.setStr StrField.outputJSResolverFile),
   ("-og", ArgEffect.setStr StrField.outputNeptuneSchemaFile),
   ("--output-neptune-schema-file", ArgEffect.setStr StrField.outputNeptuneSchemaFile),
   ("-org", ArgEffect.setQueryLanguage "gremlin"),
   ("--output-resolver-query-gremlin", ArgEffect.setQueryLanguage "gremlin"),
   ("-oro", ArgEffect.setQueryLanguage "opencypher"),
   ("--output-resolver-query-opencypher", ArgEffect.setQueryLanguage "opencypher"),
   ("-orc", ArgEffect.setQueryClient "client"),
   ("--output-resolver-query-client", ArgEffect.setQueryClient "client"),
   ("-orh", ArgEffect.setQueryClient "http"),
   ("--output-resolver-query-https", ArgEffect.setQueryClient "http"),
   ("-ors", ArgEffect.setQueryClient "sdk"),
   ("--output-resolver-query-sdk", ArgEffect.setQueryClient "sdk")]

/-- Third quarter of the token-to-effect table (AWS pipeline options). -/
def argTable3 : List (String × ArgEffect) :=
  [("-p", ArgEffect.setPipelineFlag),
   ("--create-update-aws-pipeline", ArgEffect.setPipelineFlag),
   ("-pn", ArgEffect.setStr StrField.createUpdatePipelineName),
   ("--create-update-aws-pipeline-name", ArgEffect.setStr StrField.createUpdatePipelineName),
   ("-pr", ArgEffect.setStr StrField.createUpdatePipelineRegion),
   ("--create-update-aws-pipeline-region", ArgEffect.setStr StrField.createUpdatePipelineRegion),
   ("-pe", ArgEffect.setStr StrField.createUpdatePipelineEndpoint),
   ("--create-update-aws-pipeline-neptune-endpoint", ArgEffect.setStr StrField.createUpdatePipelineEndpoint),
   ("-pd", ArgEffect.setStr StrField.createUpdatePipelineNeptuneDatabaseName),
   ("--create-update-aws-pipeline-neptune-database-name",
     ArgEffect.setStr StrField.createUpdatePipelineNeptuneDatabaseName),
   ("-rp", ArgEffect.setStr StrField.removePipelineName),
   ("--remove-aws-pipeline-name", ArgEffect.setStr StrField.removePipelineName),
   ("-c", ArgEffect.setCDKFlag),
   ("--output-aws-pipeline-cdk", ArgEffect.setCDKFlag),
   ("-ce", ArgEffect.setStr StrField.inputCDKpipelineEnpoint),
   ("--output-aws-pipeline-cdk-neptune-endpoint", ArgEffect.setStr StrField.inputCDKpipelineEnpoint),
   ("-cd", ArgEffect.setStr StrField.inputCDKpipelineDatabaseName),
   ("--output-aws-pipeline-cdk-neptune-database-name", ArgEffect.setStr StrField.inputCDKpipelineDatabaseName),
   ("-cn", ArgEffect.setStr StrField.inputCDKpipelineName),
   ("--output-aws-pipeline-cdk-name", ArgEffect.setStr StrField.inputCDKpipelineName),
   ("-cr", ArgEffect.setStr StrField.inputCDKpipelineRegion),
   ("--output-aws-pipeline-cdk-region", ArgEffect.setStr StrField.inputCDKpipelineRegion),
   ("-cf", ArgEffect.setStr StrField.inputCDKpipelineFile),
   ("--output-aws-pipeline-cdk-file", ArgEffect.setStr StrField.inputCDKpipelineFile)]

/-- Last quarter of the token-to-effect table (zip, IAM, output folder). -/
def argTable4 : List (String × ArgEffect) :=
  [("-oln", ArgEffect.setStr StrField.outputLambdaResolverZipName),
   ("--output-lambda-resolver-zip-name", ArgEffect.setStr StrField.outputLambdaResolverZipName),
   ("-olf", ArgEffect.setStr StrField.outputLambdaResolverZipFile),
   ("--output-lambda-resolver-zip-file", ArgEffect.setStr StrField.outputLambdaResolverZipFile),
   ("-pi", ArgEffect.setIAM), ("--create-update-aws-pipeline-neptune-IAM", ArgEffect.setIAM),
   ("-ci", ArgEffect.setIAM), ("--output-aws-pipeline-cdk-neptune-IAM", ArgEffect.setIAM),
   ("-onl", ArgEffect.setNoZip), ("--output-no-lambda-zip", ArgEffect.setNoZip),
   ("-o", ArgEffect.setStr StrField.outputFolderPath),
   ("--output-folder-path", ArgEffect.setStr StrField.outputFolderPath)]

/-- The `processArgs` switch as a token-to-effect table: each `case` label of
`src/main.js` lines 96-255 maps to its effect. -/
def argTable : List (String × ArgEffect) :=
  argTable1 ++ argTable2 ++ argTable3 ++ argTable4

/-- Effect of one token: the table entry for the token, or no effect for an
unrecognized value (the switch has no default case). -/
def argEffect (v : String) : ArgEffect :=
  ((argTable.find? (fun p => p.1 == v)).map Prod.snd).getD .skip

/-- Lookup in a table with distinct keys: a non-default result is found exactly
when the pair is in the table. -/
theorem table_find_eq_iff (eff : ArgEffect) (hne : eff ≠ .skip) (v : String) :
    ∀ table : List (String × ArgEffect), (table.map Prod.fst).Nodup →
      ((((table.find? (fun p => p.1 == v)).map Prod.snd).getD .skip) = eff ↔ (v, eff) ∈ table) := by
  intro table
  induction table with
  | nil =>
    intro _
    simp [List.find?]
    intro h
    exact hne h.symm
  | cons p rest ih =>
    intro hnd
    rcases p with ⟨k, e⟩
    simp only [List.map_cons, List.nodup_cons] at hnd
    by_cases hk : k = v
    · subst hk
      simp only [List.find?, beq_self_eq_true, Option.map_some, Option.getD_some]
      constructor
      · intro he
        subst he
        exact List.mem_cons_self _ _
      · intro hm
        rcases List.mem_cons.mp hm with heq | hmem
        · exact (Prod.mk.injEq _ _ _ _ ▸ heq).symm.1 ▸ rfl
        · exact absurd (List.mem_map_of_mem Prod.fst hmem) hnd.1
    · have hbeq : (k == v) = false := beq_eq_false_iff_ne.mpr hk
      simp only [List.find?, hbeq]
      rw [ih hnd.2]
      constructor
      · intro hm
        exact List.mem_cons_of_mem _ hm
      · intro hm
        rcases List.mem_cons.mp hm with heq | hmem
        · exact absurd (congrArg Prod.fst heq).symm hk
        · exact hmem

/-- The keys of the token table are distinct. -/
theorem argTable_keys_nodup : (argTable.map Prod.fst).Nodup := by
  decide

/-- Application of one effect to the module variables; `nv` is
`array[index + 1]`. `--help` and `--version` call `process.exit(0)`, modelled
as `.error 0`. -/
def applyEffect (o : Options) (nv : String) : ArgEffect -> Except Nat Options
  | .exitEff c => .error c
  | .setQuiet => .ok { o with quiet := true }
  | .setStr f => .ok (setStrField o nv f)
  | .setNoMutations => .ok { o with outputSchemaMutations := false }
  | .setQueryLanguage s => .ok { o with queryLanguage := s }
  | .setQueryClient s => .ok { o with queryClient := s }
  | .setPipelineFlag => .ok { o with createUpdatePipeline := true }
  | .setCDKFlag => .ok { o with inputCDKpipeline := true }
  | .setIAM => .ok { o with isNeptuneIAMAuth := true }
  | .setNoZip => .ok { o with createLambdaZip := false }
  | .skip => .ok o

/-- One iteration of the `process.argv.forEach` switch in `processArgs`
(`src/main.js` lines 95-256). `next` is `array[index + 1]`; reading past the
end yields JavaScript `undefined`, modelled as the string `"undefined"`. -/
def processArg (o : Options) (v : String) (next : Option String) : Except Nat Options :=
  applyEffect o (next.getD "undefined") (argEffect v)

/-- The `forEach` loop of `processArgs`: every element of the argument array is
switched on in order (option values are also switched on, matching no case). -/
def processArgsGo (o : Options) : List String → Except Nat Options
  | [] => .ok o
  | v :: rest =>
    match processArg o v rest.head? with
    | .error c => .error c
    | .ok o2 => processArgsGo o2 rest

/-- Model of `processArgs` in `src/main.js`: fold the switch over the argument
vector starting from the initial module-variable values. -/
def processArgs (argv : List String) : Except Nat Options :=
  processArgsGo defaultOptions argv

/-- The only tokens mapped to the mutation-disabling effect are `-onm` and
`--output-schema-no-mutations`. -/
theorem argEffect_setNoMutations (v : String) :
    argEffect v = .setNoMutations ↔
      (v = "-onm" ∨ v = "--output-schema-no-mutations") := by
  unfold argEffect
  rw [table_find_eq_iff .setNoMutations (by simp) v argTable argTable_keys_nodup]
  simp [argTable, argTable1, argTable2, argTable3, argTable4, Prod.mk.injEq]

/-- Every query-client effect in the table carries one of the three literal
client values. -/
theorem argEffect_setQueryClient (v s : String) :
    argEffect v = .setQueryClient s →
      s = "sdk" ∨ s = "http" ∨ s = "client" := by
  unfold argEffect
  rw [table_find_eq_iff (.setQueryClient s) (by simp) v argTable argTable_keys_nodup]
  intro hm
  simp only [argTable, argTable1, argTable2, argTable3, argTable4, List.append_assoc,
    List.mem_append, List.mem_cons, List.not_mem_nil, or_false, Prod.mk.injEq,
    ArgEffect.setQueryClient.injEq, reduceCtorEq, and_false, false_or, or_false] at hm
  rcases hm with ⟨_, rfl⟩ | ⟨_, rfl⟩ | ⟨_, rfl⟩ | ⟨_, rfl⟩ | ⟨_, rfl⟩ | ⟨_, rfl⟩ <;> simp

/-- Applying any effect other than the mutation-disabling one preserves
`outputSchemaMutations`; the mutation-disabling one clears it. -/
theorem applyEffect_outputSchemaMutations (o : Options) (nv : String) (eff : ArgEffect)
    (o2 : Options) (h : applyEffect o nv eff = .ok o2) :
    (o2.outputSchemaMutations = true ↔
      (o.outputSchemaMutations = true ∧ eff ≠ .setNoMutations)) := by
  cases eff with
  | exitEff c => exact absurd h (by simp [applyEffect])
  | setStr f =>
    simp only [applyEffect, Except.ok.injEq] at h
    subst h
    cases f <;> simp [setStrField]
  | setQuiet => simp only [applyEffect, Except.ok.injEq] at h; subst h; simp
  | setNoMutations => simp only [applyEffect, Except.ok.injEq] at h; subst h; simp
  | setQueryLanguage s => simp only [applyEffect, Except.ok.injEq] at h; subst h; simp
  | setQueryClient s => simp only [applyEffect, Except.ok.injEq] at h; subst h; simp
  | setPipelineFlag => simp only [applyEffect, Except.ok.injEq] at h; subst h; simp
  | setCDKFlag => simp only [applyEffect, Except.ok.injEq] at h; subst h; simp
  | setIAM => simp only [applyEffect, Except.ok.injEq] at h; subst h; simp
  | setNoZip => simp only [applyEffect, Except.ok.injEq] at h; subst h; simp
  | skip => simp only [applyEffect, Except.ok.injEq] at h; subst h; simp

/-- Applying any effect keeps `queryClient` or sets it to the carried value. -/
theorem applyEffect_queryClient (o : Options) (nv : String) (eff : ArgEffect)
    (o2 : Options) (h : applyEffect o nv eff = .ok o2) :
    o2.queryClient = o.queryClient ∨ ∃ s, eff = .setQueryClient s ∧ o2.queryClient = s := by
  cases eff with
  | exitEff c => exact absurd h (by simp [applyEffect])
  | setStr f =>
    simp only [applyEffect, Except.ok.injEq] at h
    subst h
    left
    cases f <;> simp [setStrField]
  | setQueryClient s =>
    simp only [applyEffect, Except.ok.injEq] at h
    subst h
    right
    exact ⟨s, rfl, rfl⟩
  | setQuiet => simp only [applyEffect, Except.ok.injEq] at h; subst h; left; rfl
  | setNoMutations => simp only [applyEffect, Except.ok.injEq] at h; subst h; left; rfl
  | setQueryLanguage s => simp only [applyEffect, Except.ok.injEq] at h; subst h; left; rfl
  | setPipelineFlag => simp only [applyEffect, Except.ok.injEq] at h; subst h; left; rfl
  | setCDKFlag => simp only [applyEffect, Except.ok.injEq] at h; subst h; left; rfl
  | setIAM => simp only [applyEffect, Except.ok.injEq] at h; subst h; left; rfl
  | setNoZip => simp only [applyEffect, Except.ok.injEq] at h; subst h; left; rfl
  | skip => simp only [applyEffect, Except.ok.injEq] at h; subst h; left; rfl

/-- One switch iteration turns `outputSchemaMutations` off exactly on the
`-onm` / `--output-schema-no-mutations` tokens and never turns it on. -/
theorem processArg_outputSchemaMutations (o : Options) (v : String) (x : Option String)
    (o2 : Options) (h : processArg o v x = .ok o2) :
    (o2.outputSchemaMutations = true ↔
      (o.outputSchemaMutations = true ∧ v ≠ "-onm" ∧ v ≠ "--output-schema-no-mutations")) := by
  unfold processArg at h
  rw [applyEffect_outputSchemaMutations o (x.getD "undefined") (argEffect v) o2 h]
  rw [ne_eq, argEffect_setNoMutations]
  tauto

/-- One switch iteration keeps `queryClient` or sets it to one of the three
literal values. -/
theorem processArg_queryClient (o : Options) (v : String) (x : Option String)
    (o2 : Options) (h : processArg o v x = .ok o2) :
    o2.queryClient = o.queryClient ∨ o2.queryClient = "sdk" ∨
      o2.queryClient = "http" ∨ o2.queryClient = "client" := by
  unfold processArg at h
  rcases applyEffect_queryClient o (x.getD "undefined") (argEffect v) o2 h with heq | ⟨s, hs, heq⟩
  · exact Or.inl heq
  · rcases argEffect_setQueryClient v s hs with h1 | h1 | h1 <;>
      simp [heq, h1]

/-- Fold form of `processArg_outputSchemaMutations` over the whole argument
vector. -/
theorem processArgsGo_outputSchemaMutations (l : List String) :
    ∀ o o2 : Options, processArgsGo o l = .ok o2 →
      (o2.outputSchemaMutations = true ↔
        (o.outputSchemaMutations = true ∧ "-onm" ∉ l ∧ "--output-schema-no-mutations" ∉ l)) := by
  induction l with
  | nil =>
    intro o o2 h
    simp only [processArgsGo, Except.ok.injEq] at h
    subst h
    simp
  | cons v rest ih =>
    intro o o2 h
    simp only [processArgsGo] at h
    cases hv : processArg o v rest.head? with
    | error c => rw [hv] at h; simp at h
    | ok o1 =>
      rw [hv] at h
      have h1 := processArg_outputSchemaMutations o v rest.head? o1 hv
      have h2 := ih o1 o2 h
      rw [h2, h1]
      simp only [List.mem_cons, not_or]
      constructor
      · rintro ⟨⟨hm, hv1, hv2⟩, hr1, hr2⟩
        exact ⟨hm, ⟨fun hc => hv1 hc.symm, hr1⟩, ⟨fun hc => hv2 hc.symm, hr2⟩⟩
      · rintro ⟨hm, ⟨hv1, hr1⟩, hv2, hr2⟩
        exact ⟨⟨hm, fun hc => hv1 hc.symm, fun hc => hv2 hc.symm⟩, hr1, hr2⟩

/-- Fold form of `processArg_queryClient`: the three-valued invariant is
preserved along the whole argument vector. -/
theorem processArgsGo_queryClient (l : List String) :
    ∀ o o2 : Options, processArgsGo o l = .ok o2 →
      (o.queryClient = "sdk" ∨ o.queryClient = "http" ∨ o.queryClient = "client") →
      (o2.queryClient = "sdk" ∨ o2.queryClient = "http" ∨ o2.queryClient = "client") := by
  induction l with
  | nil =>
    intro o o2 h hi
    simp only [processArgsGo, Except.ok.injEq] at h
    subst h
    exact hi
  | cons v rest ih =>
    intro o o2 h hi
    simp only [processArgsGo] at h
    cases hv : processArg o v rest.head? with
    | error c => rw [hv] at h; simp at h
    | ok o1 =>
      rw [hv] at h
      rcases processArg_queryClient o v rest.head? o1 hv with heq | hset
      · exact ih o1 o2 h (heq ▸ hi)
      · exact ih o1 o2 h hset

/-- A field of a GraphQL definition as seen by `getSchemaFields` (the parsed
schema model exposes `def.fields` with `field.name.value`). -/
structure GQLField where
  name : String
deriving DecidableEq

/-- A definition of the parsed schema model as seen by `getSchemaFields`:
its `kind` string (for example `"ObjectTypeDefinition"`), its name, and the
list of its fields. -/
structure GQLDef where
  kind : String
  name : String
  fields : List GQLField
deriving DecidableEq

/-- Model of `getSchemaFields` in `pipelineResources.js` (lines 519-531): the
names of the fields of every `ObjectTypeDefinition` whose name matches. -/
def getSchemaFields (defs : List GQLDef) (typeName : String) : List String :=
  defs.foldl
    (fun r d =>
      if d.kind = "ObjectTypeDefinition" ∧ d.name = typeName then
        r ++ d.fields.map GQLField.name
      else r)
    []

/-- Model of `attachResolvers` in `pipelineResources.js` (lines 534-588) as a
function of the schema definitions, the `ADD_MUTATIONS` flag, and the field
names of the already existing Query and Mutation resolvers (obtained from the
two `ListResolversCommand` calls). The result lists the
`attachResolverToSchemaField` calls as (type name, field name) pairs in order:
`mutations` is empty unless `ADD_MUTATIONS`, every Query field without an
existing resolver is attached, and the Mutation loop runs only under
`ADD_MUTATIONS`. -/
def attachResolvers (defs : List GQLDef) (addMutations : Bool)
    (existingQueries existingMutations : List String) : List (String × String) :=
  let queries := getSchemaFields defs "Query"
  let mutations := if addMutations then getSchemaFields defs "Mutation" else []
  let queryAttaches :=
    (queries.filter (fun q => !(existingQueries.contains q))).map (fun q => ("Query", q))
  let mutationAttaches :=
    if addMutations then
      (mutations.filter (fun f => !(existingMutations.contains f))).map (fun f => ("Mutation", f))
    else []
  queryAttaches ++ mutationAttaches

/-- Model of the `switch (queryClient)` at `src/main.js` lines 533-544
selecting the Lambda deployment package path; `outputLambdaPackagePath` is
initialized to the empty string (line 88) and the switch has no default
case. -/
def outputLambdaPackagePath (queryClient neptuneType : String) : String :=
  if queryClient = "http" then "/../templates/Lambda4AppSyncHTTP"
  else if queryClient = "sdk" then
    if neptuneType = NEPTUNE_DB then "/../templates/Lambda4AppSyncSDK"
    else "/../templates/Lambda4AppSyncGraphSDK"
  else ""

/-- Model of JavaScript `String.prototype.includes` for a non-empty search
string: the search string occurs in `s` exactly when splitting on it yields
more than one part. -/
def strIncludes (s sub : String) : Bool :=
  !((jsSplit s sub).length == 1)

/-- Model of the neptune-analytics detection in `main` (`src/main.js` lines
280-288): the first non-empty endpoint among the introspection, pipeline, and
CDK endpoints is parsed; when its domain contains `neptune-graph` the run
switches to `neptuneType = 'neptune-graph'` and forces `isNeptuneIAMAuth`;
otherwise both keep their prior values (`'neptune-db'` and the flag-derived
IAM value). A parse failure propagates (the exception is uncaught in
`main`). -/
def detectNeptuneType (igEndpoint pipelineEndpoint cdkEndpoint : String)
    (iamFlag : Bool) : Except String (String × Bool) :=
  match ([igEndpoint, pipelineEndpoint, cdkEndpoint].filter (fun e => e != "")).head? with
  | none => .ok (NEPTUNE_DB, iamFlag)
  | some e =>
    match parseNeptuneDomainFromEndpoint e with
    | .error msg => .error msg
    | .ok dom =>
      if strIncludes dom NEPTUNE_GRAPH then .ok (NEPTUNE_GRAPH, true)
      else .ok (NEPTUNE_DB, iamFlag)

/-- C10: `main` inspects only the first non-empty endpoint among the
introspection, pipeline, and CDK endpoints: runs agreeing on that endpoint
agree on the outcome; when there is none, the run keeps
`neptuneType = 'neptune-db'` and the flag-derived IAM value; when the first
non-empty endpoint parses to a domain containing `neptune-graph`, the run
uses `neptuneType = 'neptune-graph'` and `isNeptuneIAMAuth = true` regardless
of the IAM CLI flags, and otherwise keeps `'neptune-db'` and the flag-derived
IAM value. -/
theorem detectNeptuneType_spec (ig pe ce : String) (iam : Bool) :
    (∀ ig2 pe2 ce2 : String,
      ([ig, pe, ce].filter (fun e => e != "")).head? =
          ([ig2, pe2, ce2].filter (fun e => e != "")).head? →
        detectNeptuneType ig pe ce iam = detectNeptuneType ig2 pe2 ce2 iam) ∧
    (([ig, pe, ce].filter (fun e => e != "")).head? = none →
      detectNeptuneType ig pe ce iam = .ok (NEPTUNE_DB, iam)) ∧
    (∀ e dom : String,
      ([ig, pe, ce].filter (fun e => e != "")).head? = some e →
      parseNeptuneDomainFromEndpoint e = .ok dom →
        detectNeptuneType ig pe ce iam =
          .ok (if strIncludes dom NEPTUNE_GRAPH then (NEPTUNE_GRAPH, true)
               else (NEPTUNE_DB, iam))) := by
  refine ⟨?_, ?_, ?_⟩
  · intro ig2 pe2 ce2 hhead
    unfold detectNeptuneType
    rw [hhead]
  · intro hhead
    unfold detectNeptuneType
    rw [hhead]
  · intro e dom hhead hparse
    unfold detectNeptuneType
    rw [hhead]
    simp only [hparse]
    by_cases hg : strIncludes dom NEPTUNE_GRAPH = true
    · simp [hg]
    · simp [hg]

/-- Witness for C10: a neptune-analytics endpoint as the only non-empty
endpoint forces `neptune-graph` and IAM auth even though the IAM flag is
`false`. -/
theorem detectNeptuneType_spec_witness :
    detectNeptuneType "g-abcdef.us-west-2.neptune-graph.amazonaws.com:8182" "" "" false =
      .ok (NEPTUNE_GRAPH, true) := by
  have h := (detectNeptuneType_spec
      "g-abcdef.us-west-2.neptune-graph.amazonaws.com:8182" "" "" false).2.2
      "g-abcdef.us-west-2.neptune-graph.amazonaws.com:8182"
      "neptune-graph.amazonaws.com" (by decide) (by rfl)
  rw [h]
  rfl

/-- The transformation passes `main` calls, as function parameters: their
implementations (`graphdb.js`, `changes.js`, `schemaParser.js`,
`schemaModelValidator.js`, `resolverJS.js`) are outside the sources at hand,
so the pipeline is modelled for an arbitrary parsed-model type `M` and
arbitrary pass functions with the call signatures used in `src/main.js`. -/
structure PipelineFns (M : Type) where
  graphDBInferenceSchema : String → Bool → String
  changeGraphQLSchema : String → String → String
  schemaParser : String → M
  validatedSchemaModel : M → Bool → M
  schemaStringify : M → Bool → String
  resolverJS : M → String → String → String → String

/-- One observable event of a `main` run (`src/main.js` lines 260-529):
pass invocations with their operands, file writes, process exits, and an
uncaught exception. `changeModelCall` is the operation shape the spec claims
for the change engine (`applyChanges` on a parsed model); `main` never emits
it — the change engine is invoked on the raw SDL text (`changeCall`). -/
inductive Ev (M : Type)
  | inferenceCall (graphDBSchema : String) (generateMutations : Bool)
  | changeCall (sdlText changes : String)
  | changeModelCall (m : M)
  | parseCall (sdlText : String)
  | validateCall (m : M)
  | resolverCall (m : M) (queryLanguage queryClient : String)
  | stringifyCall (m : M) (includeDirectives : Bool)
  | writeFile (path content : String)
  | exitEv (code : Nat)
  | throwEv
deriving DecidableEq

/-- The graphDB schema after the file-load branch (`src/main.js` lines
270-278): the file content is used when `-igf` is set and no GraphQL schema
input is given. -/
def effDbSchema1 (o : Options) (dbFile : String) : String :=
  if o.inputGraphDBSchemaFile ≠ "" ∧ o.inputGraphQLSchema = "" ∧ o.inputGraphQLSchemaFile = ""
  then dbFile else o.inputGraphDBSchema

/-- Whether the endpoint-introspection branch runs (`src/main.js` line 291). -/
def introspectionRuns (o : Options) (dbFile : String) : Prop :=
  o.inputGraphDBSchemaNeptuneEndpoint ≠ "" ∧ effDbSchema1 o dbFile = "" ∧
    o.inputGraphDBSchemaFile = ""

instance (o : Options) (dbFile : String) : Decidable (introspectionRuns o dbFile) := by
  unfold introspectionRuns
  infer_instance

/-- The graphDB schema after the endpoint-introspection branch (`src/main.js`
lines 291-315); `introspected` stands for the `getNeptuneSchema` result. -/
def effDbSchema (o : Options) (dbFile introspected : String) : String :=
  if introspectionRuns o dbFile then introspected else effDbSchema1 o dbFile

/-- Whether the inference branch runs (`src/main.js` line 318). -/
def didInfer (o : Options) (dbFile introspected : String) : Prop :=
  effDbSchema o dbFile introspected ≠ "" ∧ o.inputGraphQLSchema = "" ∧
    o.inputGraphQLSchemaFile = ""

instance (o : Options) (dbFile introspected : String) : Decidable (didInfer o dbFile introspected) := by
  unfold didInfer
  infer_instance

/-- The GraphQL schema text after the inference branch (line 320) and the
schema-file load branch (lines 325-333). -/
def effGql {M : Type} (fns : PipelineFns M) (o : Options)
    (dbFile gqlFile introspected : String) : String :=
  let g1 := if didInfer o dbFile introspected
            then fns.graphDBInferenceSchema (effDbSchema o dbFile introspected) o.outputSchemaMutations
            else o.inputGraphQLSchema
  if g1 = "" ∧ o.inputGraphQLSchemaFile ≠ "" then gqlFile else g1

/-- The change script after the changes-file load branch (lines 336-344). -/
def effChanges (o : Options) (changesFile : String) : String :=
  if o.inputGraphQLSchemaChangesFile ≠ "" then changesFile else ""

/-- The GraphQL schema text after the change-application branch (lines
421-424): `changeGraphQLSchema` is applied to the raw SDL text before any
parse. -/
def finalGql {M : Type} (fns : PipelineFns M) (o : Options)
    (dbFile gqlFile changesFile introspected : String) : String :=
  if effChanges o changesFile ≠ ""
  then fns.changeGraphQLSchema (effGql fns o dbFile gqlFile introspected) (effChanges o changesFile)
  else effGql fns o dbFile gqlFile introspected

/-- The inference event of a run, when the inference branch runs. -/
def inferenceEvents {M : Type} (o : Options)
    (dbFile introspected : String) : List (Ev M) :=
  if didInfer o dbFile introspected
  then [.inferenceCall (effDbSchema o dbFile introspected) o.outputSchemaMutations]
  else []

/-- The change event of a run, when a change script is provided. -/
def changeEvents {M : Type} (fns : PipelineFns M) (o : Options)
    (dbFile gqlFile changesFile introspected : String) : List (Ev M) :=
  if effChanges o changesFile ≠ ""
  then [.changeCall (effGql fns o dbFile gqlFile introspected) (effChanges o changesFile)]
  else []

/-- Model of the AWS-pipeline option section (`src/main.js` lines 346-389):
endpoint fallback, the three missing-parameter exits, database-name parsing
from the endpoint, and pipeline-name defaulting. The source condition
`!inputGraphDBSchemaNeptuneEndpoint == ''` evaluates, by the JavaScript
loose-equality coercion of a boolean against an empty string, to
"the endpoint is non-empty", and likewise for the region and database-name
guards below. Returns the effective
`createUpdatePipelineName` (the value used by the later output-file naming);
the parsed region is not used before the modelled cut at line 529. -/
def awsPipelineSection (o : Options) : Except Nat String :=
  if o.createUpdatePipeline then
    let ep := if o.inputGraphDBSchemaNeptuneEndpoint ≠ "" ∧ o.createUpdatePipelineEndpoint = ""
              then o.inputGraphDBSchemaNeptuneEndpoint else o.createUpdatePipelineEndpoint
    if ep = "" ∧ o.createUpdatePipelineRegion = "" ∧ o.createUpdatePipelineNeptuneDatabaseName = "" then
      .error 1
    else if ep = "" ∧ o.createUpdatePipelineRegion ≠ "" ∧ o.createUpdatePipelineNeptuneDatabaseName = "" then
      .error 1
    else if ep = "" ∧ o.createUpdatePipelineRegion = "" ∧ o.createUpdatePipelineNeptuneDatabaseName ≠ "" then
      .error 1
    else
      let dbName := if ep ≠ "" then (jsSplit ep ".").headD "" else o.createUpdatePipelineNeptuneDatabaseName
      if o.createUpdatePipelineName = "" then .ok dbName else .ok o.createUpdatePipelineName
  else .ok o.createUpdatePipelineName

/-- Model of the CDK option section (`src/main.js` lines 391-419): endpoint
override (`!inputGraphDBSchemaNeptuneEndpoint == ''` again coerces to
"the endpoint is non-empty", and here the override needs no emptiness of the
CDK endpoint), the three missing-parameter exits, database-name parsing from
the endpoint, and CDK-name defaulting. Returns the effective
`inputCDKpipelineName`. -/
def cdkSection (o : Options) : Except Nat String :=
  if o.inputCDKpipeline then
    let ep := if o.inputGraphDBSchemaNeptuneEndpoint ≠ ""
              then o.inputGraphDBSchemaNeptuneEndpoint else o.inputCDKpipelineEnpoint
    if ep = "" ∧ o.inputCDKpipelineRegion = "" ∧ o.inputCDKpipelineDatabaseName = "" then
      .error 1
    else if ep = "" ∧ o.inputCDKpipelineRegion ≠ "" ∧ o.inputCDKpipelineDatabaseName = "" then
      .error 1
    else if ep = "" ∧ o.inputCDKpipelineRegion = "" ∧ o.inputCDKpipelineDatabaseName ≠ "" then
      .error 1
    else
      let dbName := if ep ≠ "" then (jsSplit ep ".").headD "" else o.inputCDKpipelineDatabaseName
      if o.inputCDKpipelineName = "" then .ok dbName else .ok o.inputCDKpipelineName
  else .ok o.inputCDKpipelineName

/-- The client-schema output path (`src/main.js` lines 451-457). -/
def osFilePath (o : Options) (pName : String) : String :=
  if o.outputSchemaFile ≠ "" then o.outputSchemaFile
  else if pName = "" then o.outputFolderPath ++ "/output.schema.graphql"
  else o.outputFolderPath ++ "/" ++ pName ++ ".schema.graphql"

/-- The source-schema output path (`src/main.js` lines 469-475). -/
def ossFilePath (o : Options) (pName : String) : String :=
  if o.outputSourceSchemaFile ≠ "" then o.outputSourceSchemaFile
  else if pName = "" then o.outputFolderPath ++ "/output.source.schema.graphql"
  else o.outputFolderPath ++ "/" ++ pName ++ ".source.schema.graphql"

/-- The neptune-schema output path (`src/main.js` lines 486-492). -/
def ogFilePath (o : Options) (pName : String) : String :=
  if o.outputNeptuneSchemaFile ≠ "" then o.outputNeptuneSchemaFile
  else if pName = "" then o.outputFolderPath ++ "/output.neptune.schema.json"
  else o.outputFolderPath ++ "/" ++ pName ++ ".neptune.schema.json"

/-- The Lambda-resolver output path (`src/main.js` lines 503-505). -/
def olrFilePath (o : Options) : String :=
  if o.outputLambdaResolverFile ≠ "" then o.outputLambdaResolverFile
  else o.outputFolderPath ++ "/output.resolver.graphql.js"

/-- The JavaScript-resolver output path (`src/main.js` lines 516-522). -/
def orFilePath (o : Options) (pName : String) : String :=
  if o.outputJSResolverFile ≠ "" then o.outputJSResolverFile
  else if pName = "" then o.outputFolderPath ++ "/output.resolver.graphql.js"
  else o.outputFolderPath ++ "/" ++ pName ++ ".resolver.graphql.js"

/-- The events of the non-empty-schema block of `main` (`src/main.js` lines
426-529): parse, validate, the two identical `resolverJS` calls (lines
433-437), and the five output writes — the client schema (stringify without
directives), the source schema (stringify with directives), the neptune
schema, the Lambda resolver, and the JavaScript resolver. -/
def outputEvents {M : Type} (fns : PipelineFns M) (o : Options)
    (dbFile gqlFile changesFile introspected dirname pName : String) : List (Ev M) :=
  let gql3 := finalGql fns o dbFile gqlFile changesFile introspected
  let m0 := fns.schemaParser gql3
  let m1 := fns.validatedSchemaModel m0 o.quiet
  let lambdaRes := fns.resolverJS m1 o.queryLanguage o.queryClient dirname
  let jsRes := fns.resolverJS m1 o.queryLanguage o.queryClient dirname
  [.parseCall gql3, .validateCall m0,
   .resolverCall m1 o.queryLanguage o.queryClient,
   .resolverCall m1 o.queryLanguage o.queryClient,
   .stringifyCall m1 false,
   .writeFile (osFilePath o pName) (fns.schemaStringify m1 false),
   .stringifyCall m1 true,
   .writeFile (ossFilePath o pName) (fns.schemaStringify m1 true),
   .writeFile (ogFilePath o pName) (effDbSchema o dbFile introspected),
   .writeFile (olrFilePath o) lambdaRes,
   .writeFile (orFilePath o pName) jsRes]

/-- The event trace of one `main` run (`src/main.js` lines 260-529) given the
pass functions, the parsed options, and the contents handed over by the
external collaborators: the graphDB-schema file, the GraphQL-schema file, the
changes file, the introspection result, and `__dirname`. In source order:
neptune-analytics detection (line 281, an uncaught parse error aborts the
run), the endpoint-form check of the introspection branch (line 293), the
inference branch (line 318), the AWS-pipeline section (line 347) and CDK
section (line 392) with their `process.exit(1)` paths, the change application
on the raw SDL text (line 422), and the non-empty-schema block (lines
426-529). -/
def mainRun {M : Type} (fns : PipelineFns M) (o : Options)
    (dbFile gqlFile changesFile introspected dirname : String) : List (Ev M) :=
  match detectNeptuneType o.inputGraphDBSchemaNeptuneEndpoint o.createUpdatePipelineEndpoint
      o.inputCDKpipelineEnpoint o.isNeptuneIAMAuth with
  | .error _ => [.throwEv]
  | .ok _ =>
    if introspectionRuns o dbFile ∧ (jsSplit o.inputGraphDBSchemaNeptuneEndpoint ":").length ≠ 2 then
      [.exitEv 1]
    else
      match awsPipelineSection o with
      | .error c => inferenceEvents o dbFile introspected ++ [.exitEv c]
      | .ok pName =>
        match cdkSection o with
        | .error c => inferenceEvents o dbFile introspected ++ [.exitEv c]
        | .ok _ =>
          inferenceEvents o dbFile introspected
            ++ changeEvents fns o dbFile gqlFile changesFile introspected
            ++ (if finalGql fns o dbFile gqlFile changesFile introspected ≠ "" then
                  outputEvents fns o dbFile gqlFile changesFile introspected dirname pName
                else [])

/-- Unfolding of `mainRun` for a run that passes the detection, the
introspection endpoint check, and the two option sections. -/
theorem mainRun_eq_of_ok {M : Type} (fns : PipelineFns M) (o : Options)
    (dbFile gqlFile changesFile introspected dirname : String)
    (ntIam : String × Bool) (pName cdkName : String)
    (hdet : detectNeptuneType o.inputGraphDBSchemaNeptuneEndpoint o.createUpdatePipelineEndpoint
        o.inputCDKpipelineEnpoint o.isNeptuneIAMAuth = .ok ntIam)
    (hintro : ¬(introspectionRuns o dbFile ∧
        (jsSplit o.inputGraphDBSchemaNeptuneEndpoint ":").length ≠ 2))
    (hpipe : awsPipelineSection o = .ok pName)
    (hcdk : cdkSection o = .ok cdkName) :
    mainRun fns o dbFile gqlFile changesFile introspected dirname =
      inferenceEvents o dbFile introspected
        ++ changeEvents fns o dbFile gqlFile changesFile introspected
        ++ (if finalGql fns o dbFile gqlFile changesFile introspected ≠ "" then
              outputEvents fns o dbFile gqlFile changesFile introspected dirname pName
            else []) := by
  unfold mainRun
  simp only [hdet, hpipe, hcdk]
  rw [if_neg hintro]

/-- Predicate: the event is a change-engine call on a parsed model. -/
def isChangeModelEv {M : Type} : Ev M → Bool
  | .changeModelCall _ => true
  | _ => false

/-- Predicate: the event is a change-engine call on SDL text. -/
def isChangeTextEv {M : Type} : Ev M → Bool
  | .changeCall _ _ => true
  | _ => false

/-- Predicate: the event is a parse call. -/
def isParseEv {M : Type} : Ev M → Bool
  | .parseCall _ => true
  | _ => false

/-- Predicate: the event is a validator call. -/
def isValidateEv {M : Type} : Ev M → Bool
  | .validateCall _ => true
  | _ => false

/-- C1 (amended): in every run with a change script and a non-empty resulting
schema (that does not exit early), the change engine runs on the raw SDL text
after the optional inference and *before* the SDL parse and the validator:
the trace shows the text-level change call, then the parse of the changed
text, then the validation of the parsed model, with only inference events
before them. -/
theorem mainRun_change_on_text_before_parse {M : Type} (fns : PipelineFns M) (o : Options)
    (dbFile gqlFile changesFile introspected dirname : String)
    (ntIam : String × Bool) (pName cdkName : String)
    (hdet : detectNeptuneType o.inputGraphDBSchemaNeptuneEndpoint o.createUpdatePipelineEndpoint
        o.inputCDKpipelineEnpoint o.isNeptuneIAMAuth = .ok ntIam)
    (hintro : ¬(introspectionRuns o dbFile ∧
        (jsSplit o.inputGraphDBSchemaNeptuneEndpoint ":").length ≠ 2))
    (hpipe : awsPipelineSection o = .ok pName)
    (hcdk : cdkSection o = .ok cdkName)
    (hch : effChanges o changesFile ≠ "")
    (hsdl : finalGql fns o dbFile gqlFile changesFile introspected ≠ "") :
    ∃ pre post : List (Ev M),
      mainRun fns o dbFile gqlFile changesFile introspected dirname =
        pre ++ Ev.changeCall (effGql fns o dbFile gqlFile introspected) (effChanges o changesFile)
          :: Ev.parseCall (fns.changeGraphQLSchema (effGql fns o dbFile gqlFile introspected)
               (effChanges o changesFile))
          :: Ev.validateCall (fns.schemaParser (fns.changeGraphQLSchema
               (effGql fns o dbFile gqlFile introspected) (effChanges o changesFile)))
          :: post ∧
      (∀ ev ∈ pre, ∃ s b, ev = Ev.inferenceCall s b) := by
  rw [mainRun_eq_of_ok fns o dbFile gqlFile changesFile introspected dirname ntIam pName cdkName
    hdet hintro hpipe hcdk]
  rw [if_pos hsdl]
  refine ⟨inferenceEvents o dbFile introspected,
    (outputEvents fns o dbFile gqlFile changesFile introspected dirname pName).drop 2, ?_, ?_⟩
  · unfold changeEvents
    rw [if_pos hch]
    unfold outputEvents
    have hfin : finalGql fns o dbFile gqlFile changesFile introspected =
        fns.changeGraphQLSchema (effGql fns o dbFile gqlFile introspected)
          (effChanges o changesFile) := by
      unfold finalGql
      rw [if_pos hch]
    rw [hfin]
    simp
  · intro ev hev
    unfold inferenceEvents at hev
    by_cases hdi : didInfer o dbFile introspected
    · rw [if_pos hdi] at hev
      simp at hev
      exact ⟨_, _, hev⟩
    · rw [if_neg hdi] at hev
      simp at hev

/-- Concrete pass functions over `M := String` used to evaluate runs on
concrete inputs (the parsed model of a text is the text itself, change
application appends the script). -/
def cexFns : PipelineFns String where
  graphDBInferenceSchema := fun s _ => s
  changeGraphQLSchema := fun s c => s ++ c
  schemaParser := fun s => s
  validatedSchemaModel := fun m _ => m
  schemaStringify := fun m b => if b then "source " ++ m else "client " ++ m
  resolverJS := fun _ _ _ _ => "resolver"

/-- Options of a concrete run with an inline GraphQL schema and a change
script file (as from `-is 'type Foo' -isc changes.sdl`). -/
def cexOptionsC1 : Options :=
  { defaultOptions with
      inputGraphQLSchema := "type Foo",
      inputGraphQLSchemaChangesFile := "changes.sdl" }

/-- Counterexample to C1 as stated: in a run with a change script, the change
engine is never applied to a parsed Schema Model (no `changeModelCall` event
exists), and the change application precedes the parse instead of following
it — `changeGraphQLSchema` rewrites the raw SDL text and `schemaParser` runs
on its output (`src/main.js` lines 421-428). -/
theorem mainRun_change_counterexample :
    effChanges cexOptionsC1 "add X" ≠ "" ∧
    (mainRun cexFns cexOptionsC1 "" "" "add X" "" "/app").any isChangeModelEv = false ∧
    (mainRun cexFns cexOptionsC1 "" "" "add X" "" "/app").any isParseEv = true ∧
    (mainRun cexFns cexOptionsC1 "" "" "add X" "" "/app").findIdx isChangeTextEv <
      (mainRun cexFns cexOptionsC1 "" "" "add X" "" "/app").findIdx isParseEv := by
  decide

/-- Witness for C1 (amended): the concrete run of `cexOptionsC1` exhibits the
change-then-parse-then-validate segment. -/
theorem mainRun_change_on_text_before_parse_witness :
    ∃ pre post : List (Ev String),
      mainRun cexFns cexOptionsC1 "" "" "add X" "" "/app" =
        pre ++ Ev.changeCall (effGql cexFns cexOptionsC1 "" "" "") (effChanges cexOptionsC1 "add X")
          :: Ev.parseCall (cexFns.changeGraphQLSchema (effGql cexFns cexOptionsC1 "" "" "")
               (effChanges cexOptionsC1 "add X"))
          :: Ev.validateCall (cexFns.schemaParser (cexFns.changeGraphQLSchema
               (effGql cexFns cexOptionsC1 "" "" "") (effChanges cexOptionsC1 "add X")))
          :: post ∧
      (∀ ev ∈ pre, ∃ s b, ev = Ev.inferenceCall s b) :=
  mainRun_change_on_text_before_parse cexFns cexOptionsC1 "" "" "add X" "" "/app"
    (NEPTUNE_DB, false) "" "" (by decide) (by decide) (by decide) (by decide)
    (by decide) (by decide)

/-- Under default naming (no `-os`/`-oss` override), the client-schema path
and the source-schema path differ, whatever the pipeline name. -/
theorem osFilePath_ne_ossFilePath (o : Options) (p : String)
    (h1 : o.outputSchemaFile = "") (h2 : o.outputSourceSchemaFile = "") :
    osFilePath o p ≠ ossFilePath o p := by
  intro hEq
  unfold osFilePath ossFilePath at hEq
  rw [h1, h2] at hEq
  by_cases hp : p = ""
  · rw [if_neg (show ¬(("" : String) ≠ "") by simp),
      if_neg (show ¬(("" : String) ≠ "") by simp), if_pos hp, if_pos hp] at hEq
    have hlen := congrArg String.length hEq
    rw [String.length_append, String.length_append] at hlen
    have e1 : ("/output.schema.graphql" : String).length = 22 := rfl
    have e2 : ("/output.source.schema.graphql" : String).length = 29 := rfl
    omega
  · rw [if_neg (show ¬(("" : String) ≠ "") by simp),
      if_neg (show ¬(("" : String) ≠ "") by simp), if_neg hp, if_neg hp] at hEq
    have hlen := congrArg String.length hEq
    rw [String.length_append, String.length_append, String.length_append,
      String.length_append, String.length_append, String.length_append] at hlen
    have e1 : (".schema.graphql" : String).length = 15 := rfl
    have e2 : (".source.schema.graphql" : String).length = 22 := rfl
    omega

/-- C4 (amended): every run reaching the output phase with a non-empty schema
serializes the same validated Schema Model twice — once with
`includeDirectives = false` (client schema) and once with
`includeDirectives = true` (source schema) — writing the results to the two
configured output files; the two files are distinct whenever neither path is
overridden on the command line (a run overriding both `-os` and `-oss` to the
same path writes both serializations to that one file). -/
theorem mainRun_two_schema_serializations {M : Type} (fns : PipelineFns M) (o : Options)
    (dbFile gqlFile changesFile introspected dirname : String)
    (ntIam : String × Bool) (pName cdkName : String)
    (hdet : detectNeptuneType o.inputGraphDBSchemaNeptuneEndpoint o.createUpdatePipelineEndpoint
        o.inputCDKpipelineEnpoint o.isNeptuneIAMAuth = .ok ntIam)
    (hintro : ¬(introspectionRuns o dbFile ∧
        (jsSplit o.inputGraphDBSchemaNeptuneEndpoint ":").length ≠ 2))
    (hpipe : awsPipelineSection o = .ok pName)
    (hcdk : cdkSection o = .ok cdkName)
    (hsdl : finalGql fns o dbFile gqlFile changesFile introspected ≠ "") :
    ∃ pre post : List (Ev M),
      mainRun fns o dbFile gqlFile changesFile introspected dirname =
        pre ++ Ev.stringifyCall (fns.validatedSchemaModel
              (fns.schemaParser (finalGql fns o dbFile gqlFile changesFile introspected)) o.quiet) false
          :: Ev.writeFile (osFilePath o pName) (fns.schemaStringify (fns.validatedSchemaModel
              (fns.schemaParser (finalGql fns o dbFile gqlFile changesFile introspected)) o.quiet) false)
          :: Ev.stringifyCall (fns.validatedSchemaModel
              (fns.schemaParser (finalGql fns o dbFile gqlFile changesFile introspected)) o.quiet) true
          :: Ev.writeFile (ossFilePath o pName) (fns.schemaStringify (fns.validatedSchemaModel
              (fns.schemaParser (finalGql fns o dbFile gqlFile changesFile introspected)) o.quiet) true)
          :: post ∧
      ((o.outputSchemaFile = "" ∧ o.outputSourceSchemaFile = "") →
        osFilePath o pName ≠ ossFilePath o pName) := by
  rw [mainRun_eq_of_ok fns o dbFile gqlFile changesFile introspected dirname ntIam pName cdkName
    hdet hintro hpipe hcdk]
  rw [if_pos hsdl]
  refine ⟨inferenceEvents o dbFile introspected
      ++ changeEvents fns o dbFile gqlFile changesFile introspected
      ++ [Ev.parseCall (finalGql fns o dbFile gqlFile changesFile introspected),
          Ev.validateCall (fns.schemaParser (finalGql fns o dbFile gqlFile changesFile introspected)),
          Ev.resolverCall (fns.validatedSchemaModel
            (fns.schemaParser (finalGql fns o dbFile gqlFile changesFile introspected)) o.quiet)
            o.queryLanguage o.queryClient,
          Ev.resolverCall (fns.validatedSchemaModel
            (fns.schemaParser (finalGql fns o dbFile gqlFile changesFile introspected)) o.quiet)
            o.queryLanguage o.queryClient],
    [Ev.writeFile (ogFilePath o pName) (effDbSchema o dbFile introspected),
     Ev.writeFile (olrFilePath o) (fns.resolverJS (fns.validatedSchemaModel
       (fns.schemaParser (finalGql fns o dbFile gqlFile changesFile introspected)) o.quiet)
       o.queryLanguage o.queryClient dirname),
     Ev.writeFile (orFilePath o pName) (fns.resolverJS (fns.validatedSchemaModel
       (fns.schemaParser (finalGql fns o dbFile gqlFile changesFile introspected)) o.quiet)
       o.queryLanguage o.queryClient dirname)], ?_, ?_⟩
  · unfold outputEvents
    simp
  · intro hdefaults
    exact osFilePath_ne_ossFilePath o pName hdefaults.1 hdefaults.2

/-- Options of a concrete run overriding both schema output files to the same
path (as from `-is 'type Foo' -os x.graphql -oss x.graphql`). -/
def cexOptionsC4 : Options :=
  { defaultOptions with
      inputGraphQLSchema := "type Foo",
      outputSchemaFile := "x.graphql",
      outputSourceSchemaFile := "x.graphql" }

/-- Counterexample to C4 as stated: a run that overrides both schema output
paths to the same file writes the client schema and the source schema to one
and the same file — the two output files are not distinct. -/
theorem mainRun_distinct_files_counterexample :
    osFilePath cexOptionsC4 "" = ossFilePath cexOptionsC4 "" ∧
    mainRun cexFns cexOptionsC4 "" "" "" "" "/app" =
      [Ev.parseCall "type Foo", Ev.validateCall "type Foo",
       Ev.resolverCall "type Foo" "opencypher" "sdk",
       Ev.resolverCall "type Foo" "opencypher" "sdk",
       Ev.stringifyCall "type Foo" false,
       Ev.writeFile "x.graphql" "client type Foo",
       Ev.stringifyCall "type Foo" true,
       Ev.writeFile "x.graphql" "source type Foo",
       Ev.writeFile "./output/output.neptune.schema.json" "",
       Ev.writeFile "./output/output.resolver.graphql.js" "resolver",
       Ev.writeFile "./output/output.resolver.graphql.js" "resolver"] := by
  decide

/-- Options of a concrete default-output run with an inline GraphQL schema
(as from `-is 'type Foo'`). -/
def cexOptionsDflt : Options :=
  { defaultOptions with inputGraphQLSchema := "type Foo" }

/-- Witness for C4 (amended): the default-output run serializes the same model
twice and its two schema files are distinct. -/
theorem mainRun_two_schema_serializations_witness :
    ∃ pre post : List (Ev String),
      mainRun cexFns cexOptionsDflt "" "" "" "" "/app" =
        pre ++ Ev.stringifyCall (cexFns.validatedSchemaModel
              (cexFns.schemaParser (finalGql cexFns cexOptionsDflt "" "" "" "")) cexOptionsDflt.quiet) false
          :: Ev.writeFile (osFilePath cexOptionsDflt "") (cexFns.schemaStringify (cexFns.validatedSchemaModel
              (cexFns.schemaParser (finalGql cexFns cexOptionsDflt "" "" "" "")) cexOptionsDflt.quiet) false)
          :: Ev.stringifyCall (cexFns.validatedSchemaModel
              (cexFns.schemaParser (finalGql cexFns cexOptionsDflt "" "" "" "")) cexOptionsDflt.quiet) true
          :: Ev.writeFile (ossFilePath cexOptionsDflt "") (cexFns.schemaStringify (cexFns.validatedSchemaModel
              (cexFns.schemaParser (finalGql cexFns cexOptionsDflt "" "" "" "")) cexOptionsDflt.quiet) true)
          :: post ∧
      ((cexOptionsDflt.outputSchemaFile = "" ∧ cexOptionsDflt.outputSourceSchemaFile = "") →
        osFilePath cexOptionsDflt "" ≠ ossFilePath cexOptionsDflt "") :=
  mainRun_two_schema_serializations cexFns cexOptionsDflt "" "" "" "" "/app"
    (NEPTUNE_DB, false) "" "" (by decide) (by decide) (by decide) (by decide) (by decide)

/-- C5: every run reaching the output phase makes exactly the two adjacent,
identical `resolverJS(schemaModel, queryLanguage, queryClient, __dirname)`
calls of `src/main.js` lines 433-437, and the Lambda-resolver write and the
JavaScript-resolver write carry one and the same resolver source text — the
term `fns.resolverJS m1 o.queryLanguage o.queryClient dirname` appears as the
content of both writes. -/
theorem mainRun_resolver_outputs_equal {M : Type} (fns : PipelineFns M) (o : Options)
    (dbFile gqlFile changesFile introspected dirname : String)
    (ntIam : String × Bool) (pName cdkName : String)
    (hdet : detectNeptuneType o.inputGraphDBSchemaNeptuneEndpoint o.createUpdatePipelineEndpoint
        o.inputCDKpipelineEnpoint o.isNeptuneIAMAuth = .ok ntIam)
    (hintro : ¬(introspectionRuns o dbFile ∧
        (jsSplit o.inputGraphDBSchemaNeptuneEndpoint ":").length ≠ 2))
    (hpipe : awsPipelineSection o = .ok pName)
    (hcdk : cdkSection o = .ok cdkName)
    (hsdl : finalGql fns o dbFile gqlFile changesFile introspected ≠ "") :
    ∃ pre : List (Ev M),
      mainRun fns o dbFile gqlFile changesFile introspected dirname =
        pre ++ [Ev.resolverCall (fns.validatedSchemaModel
                  (fns.schemaParser (finalGql fns o dbFile gqlFile changesFile introspected)) o.quiet)
                  o.queryLanguage o.queryClient,
                Ev.resolverCall (fns.validatedSchemaModel
                  (fns.schemaParser (finalGql fns o dbFile gqlFile changesFile introspected)) o.quiet)
                  o.queryLanguage o.queryClient,
                Ev.stringifyCall (fns.validatedSchemaModel
                  (fns.schemaParser (finalGql fns o dbFile gqlFile changesFile introspected)) o.quiet) false,
                Ev.writeFile (osFilePath o pName) (fns.schemaStringify (fns.validatedSchemaModel
                  (fns.schemaParser (finalGql fns o dbFile gqlFile changesFile introspected)) o.quiet) false),
                Ev.stringifyCall (fns.validatedSchemaModel
                  (fns.schemaParser (finalGql fns o dbFile gqlFile changesFile introspected)) o.quiet) true,
                Ev.writeFile (ossFilePath o pName) (fns.schemaStringify (fns.validatedSchemaModel
                  (fns.schemaParser (finalGql fns o dbFile gqlFile changesFile introspected)) o.quiet) true),
                Ev.writeFile (ogFilePath o pName) (effDbSchema o dbFile introspected),
                Ev.writeFile (olrFilePath o) (fns.resolverJS (fns.validatedSchemaModel
                  (fns.schemaParser (finalGql fns o dbFile gqlFile changesFile introspected)) o.quiet)
                  o.queryLanguage o.queryClient dirname),
                Ev.writeFile (orFilePath o pName) (fns.resolverJS (fns.validatedSchemaModel
                  (fns.schemaParser (finalGql fns o dbFile gqlFile changesFile introspected)) o.quiet)
                  o.queryLanguage o.queryClient dirname)] := by
  rw [mainRun_eq_of_ok fns o dbFile gqlFile changesFile introspected dirname ntIam pName cdkName
    hdet hintro hpipe hcdk]
  rw [if_pos hsdl]
  refine ⟨inferenceEvents o dbFile introspected
      ++ changeEvents fns o dbFile gqlFile changesFile introspected
      ++ [Ev.parseCall (finalGql fns o dbFile gqlFile changesFile introspected),
          Ev.validateCall (fns.schemaParser (finalGql fns o dbFile gqlFile changesFile introspected))], ?_⟩
  unfold outputEvents
  simp

/-- Witness for C5: the default-output run makes the two identical resolver
calls and writes the same resolver text twice. -/
theorem mainRun_resolver_outputs_equal_witness :
    ∃ pre : List (Ev String),
      mainRun cexFns cexOptionsDflt "" "" "" "" "/app" =
        pre ++ [Ev.resolverCall (cexFns.validatedSchemaModel
                  (cexFns.schemaParser (finalGql cexFns cexOptionsDflt "" "" "" "")) cexOptionsDflt.quiet)
                  cexOptionsDflt.queryLanguage cexOptionsDflt.queryClient,
                Ev.resolverCall (cexFns.validatedSchemaModel
                  (cexFns.schemaParser (finalGql cexFns cexOptionsDflt "" "" "" "")) cexOptionsDflt.quiet)
                  cexOptionsDflt.queryLanguage cexOptionsDflt.queryClient,
                Ev.stringifyCall (cexFns.validatedSchemaModel
                  (cexFns.schemaParser (finalGql cexFns cexOptionsDflt "" "" "" "")) cexOptionsDflt.quiet) false,
                Ev.writeFile (osFilePath cexOptionsDflt "") (cexFns.schemaStringify
                  (cexFns.validatedSchemaModel
                    (cexFns.schemaParser (finalGql cexFns cexOptionsDflt "" "" "" ""))
                    cexOptionsDflt.quiet) false),
                Ev.stringifyCall (cexFns.validatedSchemaModel
                  (cexFns.schemaParser (finalGql cexFns cexOptionsDflt "" "" "" "")) cexOptionsDflt.quiet) true,
                Ev.writeFile (ossFilePath cexOptionsDflt "") (cexFns.schemaStringify
                  (cexFns.validatedSchemaModel
                    (cexFns.schemaParser (finalGql cexFns cexOptionsDflt "" "" "" ""))
                    cexOptionsDflt.quiet) true),
                Ev.writeFile (ogFilePath cexOptionsDflt "") (effDbSchema cexOptionsDflt "" ""),
                Ev.writeFile (olrFilePath cexOptionsDflt) (cexFns.resolverJS
                  (cexFns.validatedSchemaModel
                    (cexFns.schemaParser (finalGql cexFns cexOptionsDflt "" "" "" ""))
                    cexOptionsDflt.quiet)
                  cexOptionsDflt.queryLanguage cexOptionsDflt.queryClient "/app"),
                Ev.writeFile (orFilePath cexOptionsDflt "") (cexFns.resolverJS
                  (cexFns.validatedSchemaModel
                    (cexFns.schemaParser (finalGql cexFns cexOptionsDflt "" "" "" ""))
                    cexOptionsDflt.quiet)
                  cexOptionsDflt.queryLanguage cexOptionsDflt.queryClient "/app")] :=
  mainRun_resolver_outputs_equal cexFns cexOptionsDflt "" "" "" "" "/app"
    (NEPTUNE_DB, false) "" "" (by decide) (by decide) (by decide) (by decide) (by decide)

/-- Payload invariants of every event of a `main` run: an inference event
always carries the `outputSchemaMutations` flag of the parsed options
(`src/main.js` line 320), and a resolver-generation event always carries the
`queryLanguage` and `queryClient` of the parsed options (lines 434 and 437). -/
theorem mainRun_event_payloads {M : Type} (fns : PipelineFns M) (o : Options)
    (dbFile gqlFile changesFile introspected dirname : String) (ev : Ev M)
    (h : ev ∈ mainRun fns o dbFile gqlFile changesFile introspected dirname) :
    (∀ s b, ev = Ev.inferenceCall s b → b = o.outputSchemaMutations) ∧
    (∀ m l c, ev = Ev.resolverCall m l c → l = o.queryLanguage ∧ c = o.queryClient) := by
  unfold mainRun at h
  cases hdet2 : detectNeptuneType o.inputGraphDBSchemaNeptuneEndpoint o.createUpdatePipelineEndpoint
      o.inputCDKpipelineEnpoint o.isNeptuneIAMAuth with
  | error msg =>
    simp only [hdet2] at h
    simp at h
    subst h
    constructor
    · intro s b hb
      simp at hb
    · intro m l c hc
      simp at hc
  | ok pr =>
    simp only [hdet2] at h
    by_cases hintro : introspectionRuns o dbFile ∧
        (jsSplit o.inputGraphDBSchemaNeptuneEndpoint ":").length ≠ 2
    · rw [if_pos hintro] at h
      simp at h
      subst h
      constructor
      · intro s b hb
        simp at hb
      · intro m l c hc
        simp at hc
    · rw [if_neg hintro] at h
      have hinf : ∀ hev : ev ∈ inferenceEvents (M := M) o dbFile introspected,
          (∀ s b, ev = Ev.inferenceCall s b → b = o.outputSchemaMutations) ∧
          (∀ m l c, ev = Ev.resolverCall m l c → l = o.queryLanguage ∧ c = o.queryClient) := by
        intro hev
        unfold inferenceEvents at hev
        split at hev
        · simp at hev
          subst hev
          constructor
          · intro s b hb
            simp at hb
            exact hb.2.symm
          · intro m l c hc
            simp at hc
        · simp at hev
      cases hpipe : awsPipelineSection o with
      | error cc =>
        simp only [hpipe] at h
        rw [List.mem_append] at h
        rcases h with h | h
        · exact hinf h
        · simp at h
          subst h
          constructor
          · intro s b hb
            simp at hb
          · intro m l c hc
            simp at hc
      | ok pName =>
        simp only [hpipe] at h
        cases hcdk : cdkSection o with
        | error cc =>
          simp only [hcdk] at h
          rw [List.mem_append] at h
          rcases h with h | h
          · exact hinf h
          · simp at h
            subst h
            constructor
            · intro s b hb
              simp at hb
            · intro m l c hc
              simp at hc
        | ok cn =>
          simp only [hcdk] at h
          rw [List.mem_append, List.mem_append] at h
          rcases h with (h | h) | h
          · exact hinf h
          · unfold changeEvents at h
            split at h
            · simp at h
              subst h
              constructor
              · intro s b hb
                simp at hb
              · intro m l c hc
                simp at hc
            · simp at h
          · split at h
            · unfold outputEvents at h
              simp only [List.mem_cons, List.not_mem_nil, or_false] at h
              constructor
              · intro s b hb
                subst hb
                rcases h with h | h | h | h | h | h | h | h | h | h | h <;> simp at h
              · intro m l c hc
                subst hc
                rcases h with h | h | h | h | h | h | h | h | h | h | h <;> simp at h
                · exact ⟨h.2.1, h.2.2⟩
                · exact ⟨h.2.1, h.2.2⟩
            · simp at h

/-- C3 (amended): for every argument vector that `processArgs` accepts, the
`queryClient` value — which `main` passes verbatim to the resolver generator —
is one of `'sdk'` (the default, also set by `-ors`), `'http'` (set by
`-orh`), or `'client'` (set by `-orc`); the Lambda deployment package path is
`Lambda4AppSyncHTTP` for `http`, `Lambda4AppSyncSDK` for `sdk` on
`neptune-db`, `Lambda4AppSyncGraphSDK` for `sdk` on any other neptune type,
and stays empty for `'client'`. -/
theorem processArgs_queryClient_spec (argv : List String) (o : Options)
    (h : processArgs argv = .ok o) :
    (o.queryClient = "sdk" ∨ o.queryClient = "http" ∨ o.queryClient = "client") ∧
    (∀ t : String, outputLambdaPackagePath "http" t = "/../templates/Lambda4AppSyncHTTP") ∧
    outputLambdaPackagePath "sdk" NEPTUNE_DB = "/../templates/Lambda4AppSyncSDK" ∧
    (∀ t : String, t ≠ NEPTUNE_DB →
      outputLambdaPackagePath "sdk" t = "/../templates/Lambda4AppSyncGraphSDK") ∧
    (∀ t : String, outputLambdaPackagePath "client" t = "") ∧
    (∀ (M : Type) (fns : PipelineFns M) (dbFile gqlFile changesFile introspected dirname : String)
       (m : M) (l c : String),
       Ev.resolverCall m l c ∈ mainRun fns o dbFile gqlFile changesFile introspected dirname →
       l = o.queryLanguage ∧ c = o.queryClient) := by
  refine ⟨?_, ?_, ?_, ?_, ?_, ?_⟩
  · exact processArgsGo_queryClient argv defaultOptions o h (by left; rfl)
  · intro t
    rfl
  · rfl
  · intro t ht
    unfold outputLambdaPackagePath
    rw [if_neg (by simp), if_pos rfl, if_neg ht]
  · intro t
    rfl
  · intro M fns dbFile gqlFile changesFile introspected dirname m l c hm
    exact (mainRun_event_payloads fns o dbFile gqlFile changesFile introspected dirname _ hm).2
      m l c rfl

/-- Counterexample to C3 as stated: the `-orc` /
`--output-resolver-query-client` option sets `queryClient` to `'client'`,
which is outside `{sdk, http}`, and the Lambda package path switch leaves the
package path empty for it. -/
theorem processArgs_orc_counterexample :
    processArgs ["-orc"] = .ok { defaultOptions with queryClient := "client" } ∧
    ({ defaultOptions with queryClient := "client" } : Options).queryClient ≠ "sdk" ∧
    ({ defaultOptions with queryClient := "client" } : Options).queryClient ≠ "http" ∧
    (∀ t : String, outputLambdaPackagePath "client" t = "") := by
  refine ⟨by decide, by decide, by decide, ?_⟩
  intro t
  rfl

/-- Witness for C3 (amended): the `-orh` vector yields `queryClient = 'http'`
and the stated package-path selection. -/
theorem processArgs_queryClient_spec_witness :
    (({ defaultOptions with queryClient := "http" } : Options).queryClient = "sdk" ∨
     ({ defaultOptions with queryClient := "http" } : Options).queryClient = "http" ∨
     ({ defaultOptions with queryClient := "http" } : Options).queryClient = "client") ∧
    (∀ t : String, outputLambdaPackagePath "http" t = "/../templates/Lambda4AppSyncHTTP") ∧
    outputLambdaPackagePath "sdk" NEPTUNE_DB = "/../templates/Lambda4AppSyncSDK" ∧
    (∀ t : String, t ≠ NEPTUNE_DB →
      outputLambdaPackagePath "sdk" t = "/../templates/Lambda4AppSyncGraphSDK") ∧
    (∀ t : String, outputLambdaPackagePath "client" t = "") ∧
    (∀ (M : Type) (fns : PipelineFns M) (dbFile gqlFile changesFile introspected dirname : String)
       (m : M) (l c : String),
       Ev.resolverCall m l c ∈ mainRun fns { defaultOptions with queryClient := "http" }
           dbFile gqlFile changesFile introspected dirname →
       l = ({ defaultOptions with queryClient := "http" } : Options).queryLanguage ∧
       c = ({ defaultOptions with queryClient := "http" } : Options).queryClient) :=
  processArgs_queryClient_spec ["-orh"] { defaultOptions with queryClient := "http" } (by decide)

/-- C6: `outputSchemaMutations` is `true` by default and `false` exactly when
`-onm` / `--output-schema-no-mutations` appears in the argument vector; the
inference call receives exactly this flag; and with the flag off,
`attachResolvers` attaches resolvers only to Query fields and no Mutation
resolver. -/
theorem processArgs_mutations_spec (argv : List String) (o : Options)
    (h : processArgs argv = .ok o) :
    (o.outputSchemaMutations = true ↔
      ("-onm" ∉ argv ∧ "--output-schema-no-mutations" ∉ argv)) ∧
    (∀ (M : Type) (fns : PipelineFns M) (dbFile gqlFile changesFile introspected dirname : String)
       (s : String) (b : Bool),
       Ev.inferenceCall s b ∈ mainRun fns o dbFile gqlFile changesFile introspected dirname →
       b = o.outputSchemaMutations) ∧
    (∀ (defs : List GQLDef) (existingQueries existingMutations : List String)
       (p : String × String),
       p ∈ attachResolvers defs false existingQueries existingMutations → p.1 = "Query") := by
  refine ⟨?_, ?_, ?_⟩
  · have hf := processArgsGo_outputSchemaMutations argv defaultOptions o h
    simpa [defaultOptions] using hf
  · intro M fns dbFile gqlFile changesFile introspected dirname s b hm
    exact (mainRun_event_payloads fns o dbFile gqlFile changesFile introspected dirname _ hm).1
      s b rfl
  · intro defs existingQueries existingMutations p hp
    unfold attachResolvers at hp
    simp only [Bool.false_eq_true, if_false, List.append_nil, List.mem_map] at hp
    rcases hp with ⟨q, _, hq⟩
    rw [← hq]

/-- Witness for C6: the `-onm` vector turns the flag off, and the concrete
claim conclusion holds for it. -/
theorem processArgs_mutations_spec_witness :
    (({ defaultOptions with outputSchemaMutations := false } : Options).outputSchemaMutations = true ↔
      ("-onm" ∉ ["-onm"] ∧ "--output-schema-no-mutations" ∉ ["-onm"])) ∧
    (∀ (M : Type) (fns : PipelineFns M) (dbFile gqlFile changesFile introspected dirname : String)
       (s : String) (b : Bool),
       Ev.inferenceCall s b ∈ mainRun fns { defaultOptions with outputSchemaMutations := false }
           dbFile gqlFile changesFile introspected dirname →
       b = ({ defaultOptions with outputSchemaMutations := false } : Options).outputSchemaMutations) ∧
    (∀ (defs : List GQLDef) (existingQueries existingMutations : List String)
       (p : String × String),
       p ∈ attachResolvers defs false existingQueries existingMutations → p.1 = "Query") :=
  processArgs_mutations_spec ["-onm"] { defaultOptions with outputSchemaMutations := false } (by decide)
